import Mathlib

/-!
# simpleGPS: the NMEA field decoder of `gps.c`

A shallow embedding of `src/gps.c` (with the build switches of `src/gps_conf.h`)
and theorems about it.

Conventions of the embedding.

* A byte stream is a `List Nat` (the bytes the pointer `str` addresses); the `size`
  argument is passed separately, exactly as in C.
* Every function that dereferences `str` returns an `Option`: `none` stands for
  undefined behaviour of the C program (a read outside the buffer, a read outside a
  schema table, or a floating value converted to `uint32_t` although it is out of
  range).  `some v` is a normal return of `v`.
* `size_t` arithmetic is arithmetic modulo `SIZE_MOD`; `uint8_t` counters are taken
  modulo 256; `int32_t` conversions go through `toInt32`.
* `float` and `double` arithmetic is carried out exactly, in `ℚ`.
-/

namespace SimpleGPS

/-! ## What the build fixes -/

/-- The parameters the two source files leave to the build: the range of `size_t`,
the constant `GPS_ERROR` (defined in the header `gps.h`) and the switch
`GPS_CHECKSUM_CONTROL_ON` of `gps_conf.h`. -/
structure Target where
  /-- Number of values of `size_t` (`2 ^ 32` on a 32-bit controller). -/
  SIZE_MOD : Nat
  /-- The integer constant `GPS_ERROR`. -/
  GPS_ERROR : Int
  /-- The value of `GPS_CHECKSUM_CONTROL_ON`. -/
  GPS_CHECKSUM_CONTROL_ON : Bool

/-- Conversion of an integer to `size_t`. -/
def Target.toSize (c : Target) (x : Int) : Nat := (x % (c.SIZE_MOD : Int)).toNat

/-- `a + b` in `size_t`. -/
def Target.add (c : Target) (a b : Nat) : Nat := c.toSize ((a : Int) + (b : Int))

/-- `a - b` in `size_t`. -/
def Target.sub (c : Target) (a b : Nat) : Nat := c.toSize ((a : Int) - (b : Int))

/-- `GPS_ERROR` as a `size_t`, the value the scanning primitives return and compare with. -/
def Target.NOT_FOUND (c : Target) : Nat := c.toSize c.GPS_ERROR

/-- Conversion of an integer to `int32_t` (also used for `int`, taken as 32 bits wide). -/
def toInt32 (x : Int) : Int := (x + 2147483648) % 4294967296 - 2147483648

/-- Modelled from the spec: `gps.h` is not among the sources; `GPS_ERROR` is a reserved
out-of-range sentinel, here the maximum-value one: the constant `-1`, which is
`SIZE_MAX` as a `size_t`.  The build is the configuration shipped in `gps_conf.h`
(checksum control off) on a 32-bit controller. -/
def shipped : Target := ⟨4294967296, -1, false⟩

/-- The same build with checksum control switched on. -/
def checked : Target := ⟨4294967296, -1, true⟩

/-! ## Constants of the header -/

/-- Modelled from the spec: `gps.h` is not among the sources; the start marker is `$`. -/
def ADDRESS_INDICATOR : Nat := 36

/-- Modelled from the spec: `gps.h` is not among the sources; the checksum marker is `*`. -/
def CHECKSUM_INDICATOR : Nat := 42

/-- Modelled from the spec: `gps.h` is not among the sources; the field separator is `,`. -/
def VALUE_SEPERATOR_HEXADECIMAL : Nat := 44

/-- Modelled from the spec: `gps.h` is not among the sources; the decimal separator is `.`. -/
def FLOAT_SEPERATION_INDICATOR : Nat := 46

/-- Modelled from the spec: `gps.h` is not among the sources; a sentence kind is the sum
of the three character codes of its name (here `R + M + C`). -/
def GPS_GPRMC : Nat := 82 + 77 + 67

/-- Modelled from the spec: `gps.h` is not among the sources; `V + T + G`. -/
def GPS_GPVTG : Nat := 86 + 84 + 71

/-- Modelled from the spec: `gps.h` is not among the sources; `G + G + A`. -/
def GPS_GPGGA : Nat := 71 + 71 + 65

/-- Modelled from the spec: `gps.h` is not among the sources; `G + S + A`. -/
def GPS_GPGSA : Nat := 71 + 83 + 65

/-- Modelled from the spec: `gps.h` is not among the sources; `G + S + V`. -/
def GPS_GPGSV : Nat := 71 + 83 + 86

/-- Modelled from the spec: `gps.h` is not among the sources; `G + L + L`. -/
def GPS_GPGLL : Nat := 71 + 76 + 76

/-- Modelled from the spec: `gps.h` is not among the sources; the field types
(`gps_infoType_t`) are Float, Integer, Character and Error, under the names `gps.c` uses. -/
inductive gps_infoType_t where
  | GPS_FLOAT_TYPE
  | GPS_INTEGER_TYPE
  | GPS_CHARACTER_TYPE
  | GPS_INFO_ERROR
  deriving DecidableEq, Repr

/-- Modelled from the spec: `gps.h` is not among the sources; the outcomes of checksum
control (`gps_Status_t`) are Valid, Invalid and NotPresent, under the names `gps.c` uses. -/
inductive gps_Status_t where
  | GPS_VALID_CHECKSUM
  | GPS_INVALID_CHECKSUM
  | GPS_NO_CHECKSUM_INDICATOR
  deriving DecidableEq, Repr

/-- Modelled from the spec: `gps.h` is not among the sources; the decoded value
(`gps_infoData_t`) is the discriminant `typeOfData` together with the member of the
union `typesOfData` that `gps_getData` writes (`fdata`, `udata` or `cdata`).  In the
error case no member is written. -/
inductive gps_infoData_t where
  | fdata (x : ℚ)
  | udata (n : Nat)
  | cdata (ch : Nat)
  | error
  deriving DecidableEq

/-- The field `typeOfData`. -/
def gps_infoData_t.typeOfData : gps_infoData_t → gps_infoType_t
  | .fdata _ => .GPS_FLOAT_TYPE
  | .udata _ => .GPS_INTEGER_TYPE
  | .cdata _ => .GPS_CHARACTER_TYPE
  | .error => .GPS_INFO_ERROR

open gps_infoType_t gps_Status_t

/-! ## Schema tables

The six tables of `gps.c`.  Their declared bounds (`GPRMC_FRAME_BUFFER_SIZE` and so on)
are defined in `gps.h`, which is not among the sources; each table is taken to have
exactly the entries of its initialiser (spec: the table length is the number of data
fields of the sentence kind). -/

/-- The table `typeTableGPRMC`. -/
def typeTableGPRMC : List gps_infoType_t :=
  [GPS_FLOAT_TYPE, GPS_CHARACTER_TYPE, GPS_FLOAT_TYPE, GPS_CHARACTER_TYPE, GPS_FLOAT_TYPE,
   GPS_CHARACTER_TYPE, GPS_FLOAT_TYPE, GPS_FLOAT_TYPE, GPS_INTEGER_TYPE, GPS_INTEGER_TYPE,
   GPS_CHARACTER_TYPE, GPS_CHARACTER_TYPE]

/-- The table `typeTableGPVTG`. -/
def typeTableGPVTG : List gps_infoType_t :=
  [GPS_INTEGER_TYPE, GPS_CHARACTER_TYPE, GPS_INTEGER_TYPE, GPS_CHARACTER_TYPE,
   GPS_INTEGER_TYPE, GPS_CHARACTER_TYPE, GPS_INTEGER_TYPE, GPS_CHARACTER_TYPE,
   GPS_CHARACTER_TYPE]

/-- The table `typeTableGPGGA`. -/
def typeTableGPGGA : List gps_infoType_t :=
  [GPS_FLOAT_TYPE, GPS_FLOAT_TYPE, GPS_CHARACTER_TYPE, GPS_FLOAT_TYPE, GPS_CHARACTER_TYPE,
   GPS_INTEGER_TYPE, GPS_INTEGER_TYPE, GPS_INTEGER_TYPE, GPS_INTEGER_TYPE,
   GPS_CHARACTER_TYPE, GPS_INTEGER_TYPE, GPS_CHARACTER_TYPE, GPS_INTEGER_TYPE,
   GPS_INTEGER_TYPE]

/-- The table `typeTableGPGSA`. -/
def typeTableGPGSA : List gps_infoType_t :=
  [GPS_CHARACTER_TYPE, GPS_INTEGER_TYPE, GPS_INTEGER_TYPE, GPS_INTEGER_TYPE,
   GPS_INTEGER_TYPE, GPS_INTEGER_TYPE, GPS_INTEGER_TYPE, GPS_INTEGER_TYPE,
   GPS_INTEGER_TYPE, GPS_INTEGER_TYPE, GPS_INTEGER_TYPE, GPS_INTEGER_TYPE,
   GPS_INTEGER_TYPE, GPS_INTEGER_TYPE, GPS_INTEGER_TYPE, GPS_INTEGER_TYPE,
   GPS_INTEGER_TYPE]

/-- The table `typeTableGPGSV`. -/
def typeTableGPGSV : List gps_infoType_t :=
  [GPS_INTEGER_TYPE, GPS_INTEGER_TYPE, GPS_INTEGER_TYPE, GPS_INTEGER_TYPE,
   GPS_INTEGER_TYPE, GPS_INTEGER_TYPE, GPS_INTEGER_TYPE]

/-- The table `typeTableGPGLL`. -/
def typeTableGPGLL : List gps_infoType_t :=
  [GPS_FLOAT_TYPE, GPS_CHARACTER_TYPE, GPS_FLOAT_TYPE, GPS_CHARACTER_TYPE, GPS_FLOAT_TYPE,
   GPS_CHARACTER_TYPE, GPS_CHARACTER_TYPE]

/-! ## Byte scanner -/

/-- The `for` loop of `gps_findIndex`; the first argument is `size - i`, the number of
iterations the guard `i < size` still admits. -/
def gps_findIndex_loop (c : Target) (str : List Nat) (value : Nat) : Nat → Nat → Option Nat
  | 0, _ => some c.NOT_FOUND
  | n + 1, i =>
    match str[i]? with
    | none => none
    | some b => if b = value then some i else gps_findIndex_loop c str value n (i + 1)

/-- `gps_findIndex(str, size, startIndex, value)`. -/
def gps_findIndex (c : Target) (str : List Nat) (size startIndex value : Nat) : Option Nat :=
  gps_findIndex_loop c str value (size - startIndex) startIndex

/-- The `do ... while` loop of `gps_findXthIndex`, with the number of iterations it may
still take, the variable `nextStartIndex` and the `uint8_t` variable `count`. -/
def gps_findXthIndex_loop (c : Target) (str : List Nat) (size value Xth : Nat) :
    Nat → Nat → Nat → Option Nat
  | 0, _, _ => none
  | fuel + 1, nextStartIndex, count =>
    match gps_findIndex c str size nextStartIndex value with
    | none => none
    | some found =>
      if c.NOT_FOUND = found then some c.NOT_FOUND
      else
        if (count + 1) % 256 ≠ Xth then
          gps_findXthIndex_loop c str size value Xth fuel (c.add found 1) ((count + 1) % 256)
        else some (c.sub (c.add found 1) 1)

/-- `gps_findXthIndex(str, size, startIndex, value, Xth)`.  The counter is a `uint8_t`,
so the loop body runs at most 256 times. -/
def gps_findXthIndex (c : Target) (str : List Nat) (size startIndex value Xth : Nat) :
    Option Nat :=
  gps_findXthIndex_loop c str size value Xth 256 startIndex 0

/-! ## Checksum validator -/

/-- The `for` loop of `gps_controlChecksum`; the first argument is `size - i`. -/
def gps_controlChecksum_loop (c : Target) (str : List Nat) :
    Nat → Nat → Nat → Option gps_Status_t
  | 0, _, _ => some GPS_NO_CHECKSUM_INDICATOR
  | n + 1, i, checksum =>
    match str[i]? with
    | none => none
    | some b =>
      if b = CHECKSUM_INDICATOR then
        match str[c.add i 1]?, str[c.add i 2]? with
        | some hi, some lo =>
          some (if ((checksum &&& 0xFF : Nat) : Int)
                    = ((((hi : Int) - 48) * 16) + ((lo : Int) - 48)) % 4294967296
                then GPS_VALID_CHECKSUM else GPS_INVALID_CHECKSUM)
        | _, _ => none
      else gps_controlChecksum_loop c str n (i + 1) (checksum ^^^ b)

/-- `gps_controlChecksum(str, size, startIndex)`.  The right-hand side of the comparison
is an `int`; it is converted to the 32-bit unsigned type of `checksum`. -/
def gps_controlChecksum (c : Target) (str : List Nat) (size startIndex : Nat) :
    Option gps_Status_t :=
  gps_controlChecksum_loop c str (size - c.add startIndex 1) (c.add startIndex 1) 0

/-! ## Sentence locator -/

/-- The `do ... while` loop of `gps_findAddress`, with the number of iterations it may
still take and the variable `i`.  The enumeration `gps_addressIdentifier_t` is taken to
be as wide as `int`, so the sum of the three characters is stored as it is. -/
def gps_findAddress_loop (c : Target) (str : List Nat) (size address : Nat) :
    Nat → Nat → Option Int
  | 0, _ => none
  | fuel + 1, i =>
    match gps_findIndex c str size i ADDRESS_INDICATOR with
    | none => none
    | some at_ =>
      if c.NOT_FOUND = at_ ∨ c.add at_ 5 > size then some (toInt32 c.GPS_ERROR)
      else
        match str[c.add at_ 3]?, str[c.add at_ 4]?, str[c.add at_ 5]? with
        | some x, some y, some z =>
          if address ≠ x + y + z then
            gps_findAddress_loop c str size address fuel (c.add at_ 1)
          else some (toInt32 (c.sub (c.add at_ 1) 1))
        | _, _, _ => none

/-- `gps_findAddress(str, size, startIndex, address)`; the result is an `int32_t`.
Every pass of the loop either returns or moves `i` forward, so `size + 1` passes are
all it can take. -/
def gps_findAddress (c : Target) (str : List Nat) (size startIndex address : Nat) :
    Option Int :=
  gps_findAddress_loop c str size address (size + 1) startIndex

/-! ## Value converters -/

/-- The `for` loop of `gps_ascii2num`: remaining iterations, `i` and `sum`.  The product
with `pow(10, i)` is a `double`; adding it to `sum` converts the exact value back to
`uint32_t`, which is defined only for a value in `[0, 2^32)`. -/
def gps_ascii2num_loop (c : Target) (str : List Nat) (endIndex : Nat) :
    Nat → Nat → Nat → Option Nat
  | 0, _, sum => some sum
  | n + 1, i, sum =>
    match str[c.sub endIndex i]? with
    | none => none
    | some b =>
      if 0 ≤ (sum : Int) + ((b : Int) - 48) * 10 ^ i
          ∧ (sum : Int) + ((b : Int) - 48) * 10 ^ i < 4294967296 then
        gps_ascii2num_loop c str endIndex n (i + 1)
          ((sum : Int) + ((b : Int) - 48) * 10 ^ i).toNat
      else none

/-- `gps_ascii2num(str, startIndex, endIndex)`. -/
def gps_ascii2num (c : Target) (str : List Nat) (startIndex endIndex : Nat) : Option Nat :=
  gps_ascii2num_loop c str endIndex (c.add (c.sub endIndex startIndex) 1) 0 0

/-- The `for` loop of `gps_floatAscii2num`: remaining iterations, `i`, `sum`,
`float_flag` and the `uint8_t` variable `float_index`. -/
def gps_floatAscii2num_loop (c : Target) (str : List Nat) (endIndex : Nat) :
    Nat → Nat → ℚ → Bool → Nat → Option ℚ
  | 0, _, sum, _, _ => some sum
  | n + 1, i, sum, float_flag, float_index =>
    match str[c.sub endIndex i]? with
    | none => none
    | some b =>
      if b = FLOAT_SEPERATION_INDICATOR then
        gps_floatAscii2num_loop c str endIndex n (i + 1)
          (sum * (10 : ℚ) ^ (toInt32 (c.toSize (-(i : Int))))) true (i % 256)
      else
        if !float_flag then
          gps_floatAscii2num_loop c str endIndex n (i + 1)
            (sum + ((b : ℚ) - 48) * (10 : ℚ) ^ i) float_flag float_index
        else
          gps_floatAscii2num_loop c str endIndex n (i + 1)
            (sum + ((b : ℚ) - 48) * (10 : ℚ) ^ (c.sub (c.sub i 1) float_index))
            float_flag float_index

/-- `gps_floatAscii2num(str, startIndex, endIndex)`; `float_index` is not initialised in
the source and is not read before it is written. -/
def gps_floatAscii2num (c : Target) (str : List Nat) (startIndex endIndex : Nat) : Option ℚ :=
  gps_floatAscii2num_loop c str endIndex (c.add (c.sub endIndex startIndex) 1) 0 0 false 0

/-- `gps_getSingleChar(str, index)`. -/
def gps_getSingleChar (str : List Nat) (index : Nat) : Option Nat := str[index]?

/-! ## Schema registry, field decoder, query -/

/-- `gps_getTable(address)`, all six frames being enabled in `gps_conf.h`; `none` is the
null pointer. -/
def gps_getTable (address : Nat) : Option (List gps_infoType_t) :=
  if address = GPS_GPRMC then some typeTableGPRMC
  else if address = GPS_GPVTG then some typeTableGPVTG
  else if address = GPS_GPGGA then some typeTableGPGGA
  else if address = GPS_GPGSA then some typeTableGPGSA
  else if address = GPS_GPGSV then some typeTableGPGSV
  else if address = GPS_GPGLL then some typeTableGPGLL
  else none

/-- `gps_getData(str, startIndex, endIndex, address, index)`; `address[index - 1]` is
read with `index - 1` computed in `int`. -/
def gps_getData (c : Target) (str : List Nat) (startIndex endIndex : Nat)
    (address : List gps_infoType_t) (index : Nat) : Option gps_infoData_t :=
  if index = 0 then none
  else
    match address[index - 1]? with
    | none => none
    | some GPS_FLOAT_TYPE =>
      (gps_floatAscii2num c str (c.add startIndex 1) (c.sub endIndex 1)).map .fdata
    | some GPS_INTEGER_TYPE =>
      (gps_ascii2num c str (c.add startIndex 1) (c.sub endIndex 1)).map .udata
    | some GPS_CHARACTER_TYPE =>
      (gps_getSingleChar str (c.add startIndex 1)).map .cdata
    | some GPS_INFO_ERROR => some .error

/-- `gps_getInfo(str, size, address, index)`. -/
def gps_getInfo (c : Target) (str : List Nat) (size address index : Nat) :
    Option gps_infoData_t :=
  match gps_findAddress c str size 0 address with
  | none => none
  | some r =>
    let firstIndex := c.toSize r
    match (if c.GPS_CHECKSUM_CONTROL_ON then gps_controlChecksum c str size firstIndex
           else some GPS_VALID_CHECKSUM) with
    | none => none
    | some st =>
      if GPS_VALID_CHECKSUM ≠ st then some .error
      else
        match gps_findXthIndex c str size firstIndex VALUE_SEPERATOR_HEXADECIMAL index with
        | none => none
        | some firstIndex =>
          match gps_findIndex c str size (c.add firstIndex 1) VALUE_SEPERATOR_HEXADECIMAL with
          | none => none
          | some lastIndex =>
            match gps_getTable address with
            | some addressTable => gps_getData c str firstIndex lastIndex addressTable index
            | none => some .error

/-- The bytes of an ASCII text. -/
def bytes (s : String) : List Nat := s.toList.map Char.toNat


/-! ## Specification-side notions -/

/-- The spec's reading of `findXthIndex`: `gps_findIndex` applied `n` times, each
application starting one position past the previous match, `NOT_FOUND` as soon as one
application finds nothing. -/
def findIndexTimes (c : Target) (str : List Nat) (size value : Nat) : Nat → Nat → Option Nat
  | 0, _ => some c.NOT_FOUND
  | n + 1, start =>
    match gps_findIndex c str size start value with
    | none => none
    | some r =>
      if r = c.NOT_FOUND then some c.NOT_FOUND
      else if n = 0 then some r
      else findIndexTimes c str size value n (r + 1)

/-- Index `j` is an occurrence of `value` at or after `startIndex`. -/
def occursAt (str : List Nat) (value startIndex j : Nat) : Prop :=
  startIndex ≤ j ∧ str[j]? = some value

instance (str : List Nat) (value startIndex : Nat) : DecidablePred (occursAt str value startIndex) :=
  fun j => by unfold occursAt; infer_instance

/-- Number of occurrences of `value` at the indices of `[startIndex, bound)`. -/
def occurrences (str : List Nat) (value startIndex bound : Nat) : Nat :=
  Nat.count (occursAt str value startIndex) bound

/-- XOR of `acc` with the bytes at the indices of `[lo, hi)`. -/
def xorRange (str : List Nat) (acc lo hi : Nat) : Nat :=
  ((str.drop lo).take (hi - lo)).foldl (fun x b => x ^^^ b) acc

/-- The sum of the three identifying characters of a sentence whose start marker is at
index `j` (the bytes at `j + 3`, `j + 4`, `j + 5`), when all three lie in the buffer. -/
def addressSum (str : List Nat) (j : Nat) : Option Nat :=
  match str[j + 3]?, str[j + 4]?, str[j + 5]? with
  | some x, some y, some z => some (x + y + z)
  | _, _, _ => none

/-- The build can index a stream of `size` bytes: no index computation on it wraps around
in `size_t`, the sentinel is not an index of the stream, and every index of the stream
is an `int32_t`. -/
def Target.fits (c : Target) (size : Nat) : Prop :=
  size + 5 < c.SIZE_MOD ∧ size ≤ c.NOT_FOUND ∧ size ≤ 2147483648

instance (c : Target) (size : Nat) : Decidable (c.fits size) := by
  unfold Target.fits; infer_instance

/-- The kinds `gps_getTable` has a table for. -/
def supportedKinds : List Nat :=
  [GPS_GPRMC, GPS_GPVTG, GPS_GPGGA, GPS_GPGSA, GPS_GPGSV, GPS_GPGLL]

/-- The RMC sentence the spec quotes as known-good (68 bytes). -/
def rmcSentence : List Nat :=
  bytes "$GPRMC,123519,A,4807.038,N,01131.000,E,022.4,084.4,230394,003.1,W*6A"

/-- The base-10 value of a string of ASCII digits, most significant digit first: the sum
of `digit * 10 ^ position`, the positions counted from the rightmost digit. -/
def decimalValue : List Nat → Nat
  | [] => 0
  | b :: rest => (b - 48) * 10 ^ rest.length + decimalValue rest

/-- The bytes at the indices of `[lo, hi)`. -/
def bytesBetween (str : List Nat) (lo hi : Nat) : List Nat :=
  (str.drop lo).take (hi - lo)

/-- Every byte at an index of `[lo, hi)` is an ASCII digit `'0'..'9'`. -/
def digitsAt (str : List Nat) (lo hi : Nat) : Prop :=
  ∀ b ∈ bytesBetween str lo hi, 48 ≤ b ∧ b ≤ 57

instance (str : List Nat) (lo hi : Nat) : Decidable (digitsAt str lo hi) := by
  unfold digitsAt; infer_instance

/-- The upper-case hexadecimal digit (as an ASCII code) of a value below 16. -/
def hexDigit (v : Nat) : Nat := if v < 10 then 48 + v else 55 + v

/-- Steps 3 to 5 of the query (spec 4.7), from the index that step 1 delivers: find the
`index`-th separator and the one after it, look up the schema table, decode the field.
The checksum validator does not occur in it. -/
def fieldDecode (c : Target) (str : List Nat) (size address index firstIndex : Nat) :
    Option gps_infoData_t :=
  match gps_findXthIndex c str size firstIndex VALUE_SEPERATOR_HEXADECIMAL index with
  | none => none
  | some a =>
    match gps_findIndex c str size (c.add a 1) VALUE_SEPERATOR_HEXADECIMAL with
    | none => none
    | some b =>
      match gps_getTable address with
      | some t => gps_getData c str a b t index
      | none => some .error

/-- The three letters (as ASCII codes) of the six supported kinds: RMC, VTG, GGA, GSA,
GSV, GLL. -/
def kindLetters : List (Nat × Nat × Nat) :=
  [(82, 77, 67), (86, 84, 71), (71, 71, 65), (71, 83, 65), (71, 83, 86), (71, 76, 76)]

/-- The identifier of a kind: the sum of the ASCII codes of its three letters. -/
def kindIdentifier (code : Nat × Nat × Nat) : Nat := code.1 + code.2.1 + code.2.2

/-- The three characters at offsets 3, 4, 5 from the start marker at `j`. -/
def lettersAt (str : List Nat) (j : Nat) : Option (Nat × Nat × Nat) :=
  match str[j + 3]?, str[j + 4]?, str[j + 5]? with
  | some x, some y, some z => some (x, y, z)
  | _, _, _ => none

/-- A GSA sentence whose last field (field 17) is `5`, followed by `*hh`, the line end
and an RMC sentence. -/
def gsaThenRmc : List Nat :=
  bytes "$GPGSA,A,3,04,05,,09,12,,,24,,,,,2.5,1.3,5*39\r\n$GPRMC,123519,A"

/-! ## The Integer converter on a build whose conversion to `uint32_t` wraps -/

/-- The `for` loop of `gps_ascii2num` on a build that converts a `double` to `uint32_t`
by truncating it to a 64-bit integer and keeping the low 32 bits, as the x86-64
instruction sequence for that conversion does.  The C standard leaves the conversion of a
value outside `[0, 2^32)` undefined; this build stores a value of `[-2^63, 2^63)` reduced
modulo `2^32`, and a value outside `[-2^63, 2^63)` is not modelled (`none`). -/
def gps_ascii2num_wrap_loop (c : Target) (str : List Nat) (endIndex : Nat) :
    Nat → Nat → Nat → Option Nat
  | 0, _, sum => some sum
  | n + 1, i, sum =>
    match str[c.sub endIndex i]? with
    | none => none
    | some b =>
      if -9223372036854775808 ≤ (sum : Int) + ((b : Int) - 48) * 10 ^ i
          ∧ (sum : Int) + ((b : Int) - 48) * 10 ^ i < 9223372036854775808 then
        gps_ascii2num_wrap_loop c str endIndex n (i + 1)
          (((sum : Int) + ((b : Int) - 48) * 10 ^ i) % 4294967296).toNat
      else none

/-- `gps_ascii2num(str, startIndex, endIndex)` on the build whose conversion wraps. -/
def gps_ascii2num_wrap (c : Target) (str : List Nat) (startIndex endIndex : Nat) :
    Option Nat :=
  gps_ascii2num_wrap_loop c str endIndex (c.add (c.sub endIndex startIndex) 1) 0 0

/-- `gps_getData(str, startIndex, endIndex, address, index)` on the build whose conversion
wraps: `gps_getData` with `gps_ascii2num_wrap` for the Integer converter. -/
def gps_getData_wrap (c : Target) (str : List Nat) (startIndex endIndex : Nat)
    (address : List gps_infoType_t) (index : Nat) : Option gps_infoData_t :=
  if index = 0 then none
  else
    match address[index - 1]? with
    | none => none
    | some GPS_FLOAT_TYPE =>
      (gps_floatAscii2num c str (c.add startIndex 1) (c.sub endIndex 1)).map .fdata
    | some GPS_INTEGER_TYPE =>
      (gps_ascii2num_wrap c str (c.add startIndex 1) (c.sub endIndex 1)).map .udata
    | some GPS_CHARACTER_TYPE =>
      (gps_getSingleChar str (c.add startIndex 1)).map .cdata
    | some GPS_INFO_ERROR => some .error

/-- `gps_getInfo(str, size, address, index)` on the build whose conversion wraps:
`gps_getInfo` with `gps_getData_wrap` for the field decoder. -/
def gps_getInfo_wrap (c : Target) (str : List Nat) (size address index : Nat) :
    Option gps_infoData_t :=
  match gps_findAddress c str size 0 address with
  | none => none
  | some r =>
    let firstIndex := c.toSize r
    match (if c.GPS_CHECKSUM_CONTROL_ON then gps_controlChecksum c str size firstIndex
           else some GPS_VALID_CHECKSUM) with
    | none => none
    | some st =>
      if GPS_VALID_CHECKSUM ≠ st then some .error
      else
        match gps_findXthIndex c str size firstIndex VALUE_SEPERATOR_HEXADECIMAL index with
        | none => none
        | some firstIndex =>
          match gps_findIndex c str size (c.add firstIndex 1) VALUE_SEPERATOR_HEXADECIMAL with
          | none => none
          | some lastIndex =>
            match gps_getTable address with
            | some addressTable =>
              gps_getData_wrap c str firstIndex lastIndex addressTable index
            | none => some .error


/-! ## Arithmetic of the target -/

theorem Target.toSize_of_lt (c : Target) {x : Int} (h0 : 0 ≤ x) (h : x < c.SIZE_MOD) :
    c.toSize x = x.toNat := by
  unfold Target.toSize
  rw [Int.emod_eq_of_lt h0 h]

theorem Target.add_of_lt (c : Target) {a b : Nat} (h : a + b < c.SIZE_MOD) :
    c.add a b = a + b := by
  unfold Target.add
  rw [c.toSize_of_lt (by omega) (by omega)]
  omega

theorem Target.sub_of_le (c : Target) {a b : Nat} (hb : b ≤ a) (h : a < c.SIZE_MOD) :
    c.sub a b = a - b := by
  unfold Target.sub
  rw [c.toSize_of_lt (by omega) (by omega)]
  omega

theorem toInt32_of_lt {x : Int} (h0 : -2147483648 ≤ x) (h : x < 2147483648) : toInt32 x = x := by
  unfold toInt32
  omega

/-! ## The byte scanner -/

theorem gps_findIndex_loop_cases (c : Target) (str : List Nat) (value : Nat) :
    ∀ (n i : Nat), i + n ≤ str.length ∨ n = 0 →
      (gps_findIndex_loop c str value n i = some c.NOT_FOUND
          ∧ ∀ j, i ≤ j → j < i + n → str[j]? ≠ some value)
      ∨ (∃ r, gps_findIndex_loop c str value n i = some r ∧ i ≤ r ∧ r < i + n
          ∧ str[r]? = some value ∧ ∀ j, i ≤ j → j < r → str[j]? ≠ some value) := by
  intro n
  induction n with
  | zero =>
    intro i _
    left
    exact ⟨rfl, fun j h1 h2 => by omega⟩
  | succ n ih =>
    intro i hlen
    have hi : i < str.length := by omega
    rw [gps_findIndex_loop, List.getElem?_eq_getElem hi]
    by_cases hb : str[i] = value
    · right
      refine ⟨i, by simp [hb], le_refl _, by omega, ?_, fun j h1 h2 => by omega⟩
      rw [List.getElem?_eq_getElem hi, hb]
    · have hne : ∀ j, i ≤ j → j < i + 1 → str[j]? ≠ some value := by
        intro j h1 h2
        have : j = i := by omega
        subst this
        rw [List.getElem?_eq_getElem hi]
        simpa using hb
      simp only [hb, if_false]
      rcases ih (i + 1) (by omega) with ⟨h, hall⟩ | ⟨r, h, h1, h2, h3, h4⟩
      · left
        refine ⟨h, fun j h1 h2 => ?_⟩
        by_cases hj : j = i
        · exact hne j h1 (by omega)
        · exact hall j (by omega) (by omega)
      · right
        refine ⟨r, h, by omega, by omega, h3, fun j h5 h6 => ?_⟩
        by_cases hj : j = i
        · exact hne j h5 (by omega)
        · exact h4 j (by omega) h6

/-- Both outcomes of `gps_findIndex` on a buffer that holds `size` bytes. -/
theorem gps_findIndex_cases (c : Target) (str : List Nat) (size startIndex value : Nat)
    (hsize : size ≤ str.length) :
    (gps_findIndex c str size startIndex value = some c.NOT_FOUND
        ∧ ∀ j, startIndex ≤ j → j < size → str[j]? ≠ some value)
    ∨ (∃ r, gps_findIndex c str size startIndex value = some r ∧ startIndex ≤ r ∧ r < size
        ∧ str[r]? = some value ∧ ∀ j, startIndex ≤ j → j < r → str[j]? ≠ some value) := by
  unfold gps_findIndex
  rcases gps_findIndex_loop_cases c str value (size - startIndex) startIndex (by omega) with
    ⟨h, hall⟩ | ⟨r, h, h1, h2, h3, h4⟩
  · left
    exact ⟨h, fun j h1 h2 => hall j h1 (by omega)⟩
  · right
    exact ⟨r, h, h1, by omega, h3, h4⟩

/-- C6. On a buffer holding `size` bytes, with the sentinel outside `[0, size)`,
`gps_findIndex` returns either `NOT_FOUND` or the first index `r` in
`[startIndex, size)` whose byte is `value`; and it returns `NOT_FOUND` exactly when no
index in `[startIndex, size)` holds `value`. -/
theorem gps_findIndex_first_match (c : Target) (str : List Nat) (size startIndex value : Nat)
    (hsize : size ≤ str.length) (hE : size ≤ c.NOT_FOUND) :
    ∃ r, gps_findIndex c str size startIndex value = some r
      ∧ (r = c.NOT_FOUND
          ∨ (startIndex ≤ r ∧ r < size ∧ str[r]? = some value
              ∧ ∀ j, startIndex ≤ j → j < r → str[j]? ≠ some value))
      ∧ (r = c.NOT_FOUND ↔ ∀ j, startIndex ≤ j → j < size → str[j]? ≠ some value) := by
  rcases gps_findIndex_cases c str size startIndex value hsize with
    ⟨h, hall⟩ | ⟨r, h, h1, h2, h3, h4⟩
  · exact ⟨_, h, Or.inl rfl, fun _ => hall, fun _ => rfl⟩
  · refine ⟨r, h, Or.inr ⟨h1, h2, h3, h4⟩, fun hr => ?_, fun hall => ?_⟩
    · omega
    · exact absurd h3 (hall r h1 h2)

/-- The first `a` of `abvdasdaf` at or after index 1 is the one at index 4. -/
theorem gps_findIndex_first_match_witness :
    (9 ≤ (bytes "abvdasdaf").length ∧ 9 ≤ shipped.NOT_FOUND)
      ∧ ∃ r, gps_findIndex shipped (bytes "abvdasdaf") 9 1 97 = some r
        ∧ (r = shipped.NOT_FOUND
            ∨ (1 ≤ r ∧ r < 9 ∧ (bytes "abvdasdaf")[r]? = some 97
                ∧ ∀ j, 1 ≤ j → j < r → (bytes "abvdasdaf")[j]? ≠ some 97))
        ∧ (r = shipped.NOT_FOUND
            ↔ ∀ j, 1 ≤ j → j < 9 → (bytes "abvdasdaf")[j]? ≠ some 97) :=
  ⟨⟨by decide, by decide⟩,
    gps_findIndex_first_match shipped (bytes "abvdasdaf") 9 1 97 (by decide) (by decide)⟩

/-! ## The n-th occurrence -/

theorem occurrences_eq_zero (str : List Nat) (value s : Nat) :
    ∀ x, (∀ j, s ≤ j → j < x → str[j]? ≠ some value) → occurrences str value s x = 0 := by
  intro x
  induction x with
  | zero => intro _; rfl
  | succ x ih =>
    intro h
    unfold occurrences at ih ⊢
    rw [Nat.count_succ, ih (fun j h1 h2 => h j h1 (by omega))]
    have : ¬ occursAt str value s x := fun hx => h x hx.1 (by omega) hx.2
    simp [this]

theorem occurrences_after_first (str : List Nat) (value s r : Nat) (hsr : s ≤ r)
    (hr : str[r]? = some value) (hfirst : ∀ j, s ≤ j → j < r → str[j]? ≠ some value) :
    ∀ x, r < x → occurrences str value s x = 1 + occurrences str value (r + 1) x := by
  intro x
  induction x with
  | zero => intro h; omega
  | succ x ih =>
    intro hx
    unfold occurrences at ih ⊢
    rw [Nat.count_succ, Nat.count_succ]
    by_cases hxr : x = r
    · subst hxr
      have h0 := occurrences_eq_zero str value s x hfirst
      have h1 := occurrences_eq_zero str value (x + 1) x (fun j h1 h2 => by omega)
      unfold occurrences at h0 h1
      have hp : occursAt str value s x := ⟨hsr, hr⟩
      have hq : ¬ occursAt str value (x + 1) x := fun h => by have := h.1; omega
      simp [h0, h1, hp, hq]
    · rw [ih (by omega)]
      have hiff : occursAt str value s x ↔ occursAt str value (r + 1) x := by
        unfold occursAt
        constructor
        · intro h; exact ⟨by omega, h.2⟩
        · intro h; exact ⟨by omega, h.2⟩
      by_cases hp : occursAt str value s x
      · have hq := hiff.mp hp
        simp [hp, hq]; omega
      · have hq : ¬ occursAt str value (r + 1) x := fun h => hp (hiff.mpr h)
        simp [hp, hq]

theorem one_add_pred (m : Nat) (hm : m ≠ 0) : 1 + (m - 1) = m + 1 - 1 := by omega

theorem findIndexTimes_nth (c : Target) (str : List Nat) (size value : Nat)
    (hsize : size ≤ str.length) (hE : size ≤ c.NOT_FOUND) :
    ∀ m s, 1 ≤ m →
      (m ≤ occurrences str value s size →
        ∃ r, findIndexTimes c str size value m s = some r ∧ r < size
          ∧ occursAt str value s r ∧ occurrences str value s r = m - 1)
      ∧ (occurrences str value s size < m →
          findIndexTimes c str size value m s = some c.NOT_FOUND) := by
  intro m
  induction m with
  | zero => intro s h; omega
  | succ m ih =>
    intro s _
    rcases gps_findIndex_cases c str size s value hsize with
      ⟨h, hall⟩ | ⟨r, h, h1, h2, h3, h4⟩
    · have h0 := occurrences_eq_zero str value s size hall
      refine ⟨fun hm => by omega, fun _ => ?_⟩
      rw [findIndexTimes, h]
      simp
    · have hne : r ≠ c.NOT_FOUND := by omega
      have hcount := occurrences_after_first str value s r h1 h3 h4
      have hr0 := occurrences_eq_zero str value s r h4
      by_cases hm : m = 0
      · subst hm
        have heq : findIndexTimes c str size value 1 s = some r := by
          rw [findIndexTimes, h]
          simp [hne]
        refine ⟨fun _ => ⟨r, heq, h2, ⟨h1, h3⟩, by simpa using hr0⟩, fun hlt => ?_⟩
        have := hcount size h2
        omega
      · have heq : findIndexTimes c str size value (m + 1) s
            = findIndexTimes c str size value m (r + 1) := by
          rw [findIndexTimes, h]
          simp [hne, hm]
        rw [heq, hcount size h2]
        obtain ⟨ih1, ih2⟩ := ih (r + 1) (by omega)
        constructor
        · intro hle
          have hle' : m ≤ occurrences str value (r + 1) size := by omega
          obtain ⟨r', e1, e2, e3, e4⟩ := ih1 hle'
          have hlt : r < r' := e3.1
          have hs : s ≤ r' := by omega
          have harith : 1 + (m - 1) = m + 1 - 1 := one_add_pred m hm
          refine ⟨r', e1, e2, ⟨hs, e3.2⟩, ?_⟩
          rw [hcount r' hlt, e4]
          exact harith
        · intro hlt
          have hlt' : occurrences str value (r + 1) size < m := by omega
          exact ih2 hlt'

theorem gps_findXthIndex_loop_eq (c : Target) (str : List Nat) (size value n : Nat)
    (hsize : size ≤ str.length) (hM : size < c.SIZE_MOD) (h255 : n ≤ 255) :
    ∀ fuel s k, k < n → n - k ≤ fuel →
      gps_findXthIndex_loop c str size value n fuel s k
        = findIndexTimes c str size value (n - k) s := by
  intro fuel
  induction fuel with
  | zero => intro s k h1 h2; omega
  | succ fuel ih =>
    intro s k hk hfuel
    obtain ⟨m, hm⟩ : ∃ m, n - k = m + 1 := ⟨n - k - 1, by omega⟩
    rw [hm, gps_findXthIndex_loop, findIndexTimes]
    rcases gps_findIndex_cases c str size s value hsize with
      ⟨h, _⟩ | ⟨r, h, h1, h2, h3, h4⟩
    · rw [h]; simp
    · rw [h]
      have hmod : (k + 1) % 256 = k + 1 := Nat.mod_eq_of_lt (by omega)
      have hadd : c.add r 1 = r + 1 := c.add_of_lt (by omega)
      have hsub : c.sub (r + 1) 1 = r := by rw [c.sub_of_le (by omega) (by omega)]; omega
      by_cases hnf : c.NOT_FOUND = r
      · simp [hnf]
      · have hnf' : r ≠ c.NOT_FOUND := fun h => hnf h.symm
        simp only [hnf, hnf', if_false, hmod, hadd, hsub]
        by_cases hlast : k + 1 = n
        · have : m = 0 := by omega
          simp [hlast, this]
        · have hm0 : m ≠ 0 := by omega
          simp only [ne_eq, hlast, not_false_eq_true, if_true, hm0, if_false]
          rw [ih (r + 1) (k + 1) (by omega) (by omega)]
          congr 1
          omega

theorem gps_findXthIndex_eq_times (c : Target) (str : List Nat)
    (size startIndex value n : Nat) (hsize : size ≤ str.length) (hM : size < c.SIZE_MOD)
    (h1 : 1 ≤ n) (h255 : n ≤ 255) :
    gps_findXthIndex c str size startIndex value n
      = findIndexTimes c str size value n startIndex := by
  unfold gps_findXthIndex
  rw [gps_findXthIndex_loop_eq c str size value n hsize hM h255 256 startIndex 0
    (by omega) (by omega)]
  rfl

/-- C7. For `1 ≤ n ≤ 255`, `gps_findXthIndex` is `gps_findIndex` applied `n` times, each
application starting one past the previous match; it returns the index of the `n`-th
occurrence of `value` in `[startIndex, size)` when at least `n` occurrences exist and
`NOT_FOUND` when fewer exist. -/
theorem gps_findXthIndex_nth_occurrence (c : Target) (str : List Nat)
    (size startIndex value n : Nat) (hsize : size ≤ str.length) (hE : size ≤ c.NOT_FOUND)
    (hM : size < c.SIZE_MOD) (h1 : 1 ≤ n) (h255 : n ≤ 255) :
    gps_findXthIndex c str size startIndex value n
        = findIndexTimes c str size value n startIndex
      ∧ (n ≤ occurrences str value startIndex size →
          ∃ r, gps_findXthIndex c str size startIndex value n = some r ∧ r < size
            ∧ occursAt str value startIndex r ∧ occurrences str value startIndex r = n - 1)
      ∧ (occurrences str value startIndex size < n →
          gps_findXthIndex c str size startIndex value n = some c.NOT_FOUND) := by
  have heq := gps_findXthIndex_eq_times c str size startIndex value n hsize hM h1 h255
  have hnth := findIndexTimes_nth c str size value hsize hE n startIndex h1
  refine ⟨heq, ?_, ?_⟩
  · intro hle
    rw [heq]
    exact hnth.1 hle
  · intro hlt
    rw [heq]
    exact hnth.2 hlt

/-- The example of the source comment: the third `a` of `abvdasdaf` is at index 7; a fourth
is not found. -/
theorem gps_findXthIndex_nth_occurrence_witness :
    gps_findXthIndex shipped (bytes "abvdasdaf") 9 0 97 3 = some 7
      ∧ gps_findXthIndex shipped (bytes "abvdasdaf") 9 0 97 3
          = findIndexTimes shipped (bytes "abvdasdaf") 9 97 3 0
      ∧ gps_findXthIndex shipped (bytes "abvdasdaf") 9 0 97 4 = some shipped.NOT_FOUND :=
  ⟨by decide,
    (gps_findXthIndex_nth_occurrence shipped (bytes "abvdasdaf") 9 0 97 3
      (by decide) (by decide) (by decide) (by decide) (by decide)).1,
    (gps_findXthIndex_nth_occurrence shipped (bytes "abvdasdaf") 9 0 97 4
      (by decide) (by decide) (by decide) (by decide) (by decide)).2.2 (by decide)⟩

/-! ## The checksum validator -/

theorem xorRange_self (str : List Nat) (acc lo : Nat) : xorRange str acc lo lo = acc := by
  simp [xorRange]

theorem xorRange_step (str : List Nat) (acc lo hi : Nat) (h : lo < hi) (hlen : lo < str.length) :
    xorRange str acc lo hi = xorRange str (acc ^^^ str[lo]) (lo + 1) hi := by
  unfold xorRange
  obtain ⟨k, hk⟩ : ∃ k, hi - lo = k + 1 := ⟨hi - lo - 1, by omega⟩
  have hk' : hi - (lo + 1) = k := by omega
  rw [hk, hk', List.drop_eq_getElem_cons hlen, List.take_succ_cons, List.foldl_cons]

theorem gps_controlChecksum_loop_cases (c : Target) (str : List Nat) :
    ∀ (n i acc : Nat), i + n ≤ str.length ∨ n = 0 →
      (gps_controlChecksum_loop c str n i acc = some GPS_NO_CHECKSUM_INDICATOR
          ∧ ∀ j, i ≤ j → j < i + n → str[j]? ≠ some CHECKSUM_INDICATOR)
      ∨ (∃ j, i ≤ j ∧ j < i + n ∧ str[j]? = some CHECKSUM_INDICATOR
          ∧ (∀ k, i ≤ k → k < j → str[k]? ≠ some CHECKSUM_INDICATOR)
          ∧ gps_controlChecksum_loop c str n i acc
              = gps_controlChecksum_loop c str 1 j (xorRange str acc i j)) := by
  intro n
  induction n with
  | zero =>
    intro i acc _
    left
    exact ⟨rfl, fun j h1 h2 => by omega⟩
  | succ n ih =>
    intro i acc hlen
    have hi : i < str.length := by omega
    by_cases hb : str[i] = CHECKSUM_INDICATOR
    · right
      refine ⟨i, le_refl _, by omega, ?_, fun k h1 h2 => by omega, ?_⟩
      · rw [List.getElem?_eq_getElem hi, hb]
      · rw [xorRange_self]
        simp [gps_controlChecksum_loop, List.getElem?_eq_getElem hi, hb]
    · have hne : ∀ j, i ≤ j → j < i + 1 → str[j]? ≠ some CHECKSUM_INDICATOR := by
        intro j h1 h2
        have : j = i := by omega
        subst this
        rw [List.getElem?_eq_getElem hi]
        simpa using hb
      have hstep : gps_controlChecksum_loop c str (n + 1) i acc
          = gps_controlChecksum_loop c str n (i + 1) (acc ^^^ str[i]) := by
        rw [gps_controlChecksum_loop, List.getElem?_eq_getElem hi]
        simp [hb]
      rw [hstep]
      rcases ih (i + 1) (acc ^^^ str[i]) (by omega) with ⟨h, hall⟩ | ⟨j, h1, h2, h3, h4, h5⟩
      · left
        refine ⟨h, fun j h1 h2 => ?_⟩
        by_cases hj : j = i
        · exact hne j h1 (by omega)
        · exact hall j (by omega) (by omega)
      · right
        refine ⟨j, by omega, by omega, h3, fun k h6 h7 => ?_, ?_⟩
        · by_cases hk : k = i
          · exact hne k h6 (by omega)
          · exact h4 k (by omega) h7
        · rw [h5, xorRange_step str acc i j (by omega) hi]

theorem checksum_compare_int (x hi lo : Nat) (hx : x < 256) (hhi : hi < 256) (hlo : lo < 256) :
    ((x : Int) = ((((hi : Int) - 48) * 16) + ((lo : Int) - 48)) % 4294967296)
      ↔ ((x : Int) = (((hi : Int) - 48) * 16) + ((lo : Int) - 48)) := by
  omega

theorem checksum_without_suffix (c : Target) (payload : List Nat)
    (hM : payload.length + 1 < c.SIZE_MOD) (hno : CHECKSUM_INDICATOR ∉ payload) :
    gps_controlChecksum c (ADDRESS_INDICATOR :: payload) (payload.length + 1) 0
      = some GPS_NO_CHECKSUM_INDICATOR := by
  unfold gps_controlChecksum
  rw [c.add_of_lt (show 0 + 1 < c.SIZE_MOD by omega)]
  rcases gps_controlChecksum_loop_cases c (ADDRESS_INDICATOR :: payload)
    (payload.length + 1 - (0 + 1)) (0 + 1) 0
    (Or.inl (by simp only [List.length_cons]; omega)) with ⟨h, _⟩ | ⟨j, h1, h2, h3, _, _⟩
  · exact h
  · obtain ⟨k, hk⟩ : ∃ k, j = k + 1 := ⟨j - 1, by omega⟩
    rw [hk, List.getElem?_cons_succ] at h3
    exact absurd (List.getElem?_mem h3) hno

/-- C8. For a start index inside a buffer of bytes: `gps_controlChecksum` returns
`GPS_NO_CHECKSUM_INDICATOR` exactly when no `*` occurs at an index of
`(startIndex, size)`; and when the first `*` is at `j` with `j + 2 < size`, it returns
`GPS_VALID_CHECKSUM` exactly when the low 8 bits of the XOR of the bytes at
`startIndex + 1 .. j - 1` equal `(str[j+1] - '0') * 16 + (str[j+2] - '0')` as integers,
and `GPS_INVALID_CHECKSUM` otherwise.  A sentence without its `*hh` suffix (a `$`
followed by bytes none of which is `*`) gives `GPS_NO_CHECKSUM_INDICATOR`. -/
theorem gps_controlChecksum_spec (c : Target) (str : List Nat) (size startIndex : Nat)
    (hsize : size ≤ str.length) (hM : size < c.SIZE_MOD) (hstart : startIndex < size)
    (hbytes : ∀ b ∈ str, b < 256) :
    (gps_controlChecksum c str size startIndex = some GPS_NO_CHECKSUM_INDICATOR
        ↔ ∀ j, startIndex < j → j < size → str[j]? ≠ some CHECKSUM_INDICATOR)
    ∧ (∀ j hi lo, startIndex < j → j + 2 < size → str[j]? = some CHECKSUM_INDICATOR →
        (∀ k, startIndex < k → k < j → str[k]? ≠ some CHECKSUM_INDICATOR) →
        str[j + 1]? = some hi → str[j + 2]? = some lo →
        gps_controlChecksum c str size startIndex
          = some (if ((xorRange str 0 (startIndex + 1) j &&& 0xFF : Nat) : Int)
                      = (((hi : Int) - 48) * 16) + ((lo : Int) - 48)
                  then GPS_VALID_CHECKSUM else GPS_INVALID_CHECKSUM))
    ∧ (∀ payload : List Nat, payload.length + 1 < c.SIZE_MOD →
        CHECKSUM_INDICATOR ∉ payload →
        gps_controlChecksum c (ADDRESS_INDICATOR :: payload) (payload.length + 1) 0
          = some GPS_NO_CHECKSUM_INDICATOR) := by
  have hfirst :
        (gps_controlChecksum c str size startIndex = some GPS_NO_CHECKSUM_INDICATOR
            ↔ ∀ j, startIndex < j → j < size → str[j]? ≠ some CHECKSUM_INDICATOR)
        ∧ (∀ j hi lo, startIndex < j → j + 2 < size → str[j]? = some CHECKSUM_INDICATOR →
            (∀ k, startIndex < k → k < j → str[k]? ≠ some CHECKSUM_INDICATOR) →
            str[j + 1]? = some hi → str[j + 2]? = some lo →
            gps_controlChecksum c str size startIndex
              = some (if ((xorRange str 0 (startIndex + 1) j &&& 0xFF : Nat) : Int)
                          = (((hi : Int) - 48) * 16) + ((lo : Int) - 48)
                      then GPS_VALID_CHECKSUM else GPS_INVALID_CHECKSUM)) := by
    have hadd : c.add startIndex 1 = startIndex + 1 := c.add_of_lt (by omega)
    unfold gps_controlChecksum
    rw [hadd]
    have hcases := gps_controlChecksum_loop_cases c str (size - (startIndex + 1))
      (startIndex + 1) 0 (by omega)
    have hstar : ∀ j acc, j < str.length → str[j]? = some CHECKSUM_INDICATOR →
        gps_controlChecksum_loop c str 1 j acc ≠ some GPS_NO_CHECKSUM_INDICATOR := by
      intro j acc hj hstar
      rw [gps_controlChecksum_loop, hstar]
      simp only [if_true]
      split
      · split <;> simp
      · simp
    constructor
    · constructor
      · intro hres j h1 h2
        rcases hcases with ⟨_, hall⟩ | ⟨j', h3, h4, h5, _, h7⟩
        · exact hall j (by omega) (by omega)
        · rw [h7] at hres
          exact absurd hres (hstar j' _ (by omega) h5)
      · intro hall
        rcases hcases with ⟨h, _⟩ | ⟨j', h3, h4, h5, _, _⟩
        · exact h
        · exact absurd h5 (hall j' (by omega) (by omega))
    · intro j hi lo h1 h2 h3 h4 h5 h6
      rcases hcases with ⟨_, hall⟩ | ⟨j', h7, h8, h9, h10, h11⟩
      · exact absurd h3 (hall j (by omega) (by omega))
      · have hjj : j' = j := by
          rcases Nat.lt_trichotomy j' j with hlt | heq | hgt
          · exact absurd h9 (h4 j' (by omega) hlt)
          · exact heq
          · exact absurd h3 (h10 j (by omega) hgt)
        subst hjj
        have hhi : hi < 256 := hbytes hi (List.getElem?_mem h5)
        have hlo : lo < 256 := hbytes lo (List.getElem?_mem h6)
        have hx : xorRange str 0 (startIndex + 1) j' &&& 0xFF < 256 :=
          Nat.lt_succ_of_le Nat.and_le_right
        rw [h11, gps_controlChecksum_loop, h9]
        simp only [if_true]
        rw [c.add_of_lt (show j' + 1 < c.SIZE_MOD by omega),
          c.add_of_lt (show j' + 2 < c.SIZE_MOD by omega), h5, h6]
        simp only [checksum_compare_int _ hi lo hx hhi hlo]
  exact ⟨hfirst.1, hfirst.2,
    fun payload hlen hmem => checksum_without_suffix c payload hlen hmem⟩

/-- The sentence `$AB,1,2`: without suffix, with the matching suffix `*00`, and with one
payload byte changed. -/
theorem gps_controlChecksum_spec_witness :
    gps_controlChecksum shipped (bytes "$AB,1,2") 7 0 = some GPS_NO_CHECKSUM_INDICATOR
      ∧ gps_controlChecksum shipped (ADDRESS_INDICATOR :: bytes "AB,1,2") 7 0
          = some GPS_NO_CHECKSUM_INDICATOR
      ∧ gps_controlChecksum shipped (bytes "$AB,1,2*00") 10 0 = some GPS_VALID_CHECKSUM
      ∧ gps_controlChecksum shipped (bytes "$AB,1,3*00") 10 0 = some GPS_INVALID_CHECKSUM :=
  ⟨(gps_controlChecksum_spec shipped (bytes "$AB,1,2") 7 0 (by decide) (by decide)
      (by decide) (by decide)).1.2 (by intro j h1 h2; interval_cases j <;> decide),
    (gps_controlChecksum_spec shipped (bytes "$AB,1,2") 7 0 (by decide) (by decide)
      (by decide) (by decide)).2.2 (bytes "AB,1,2") (by decide) (by decide),
    (gps_controlChecksum_spec shipped (bytes "$AB,1,2*00") 10 0 (by decide) (by decide)
      (by decide) (by decide)).2.1 7 48 48 (by decide) (by decide) (by decide)
      (by intro k h1 h2; interval_cases k <;> decide) (by decide) (by decide),
    (gps_controlChecksum_spec shipped (bytes "$AB,1,3*00") 10 0 (by decide) (by decide)
      (by decide) (by decide)).2.1 7 48 48 (by decide) (by decide) (by decide)
      (by intro k h1 h2; interval_cases k <;> decide) (by decide) (by decide)⟩

/-! ## The sentence locator -/

theorem gps_findAddress_loop_cases (c : Target) (str : List Nat) (size address : Nat)
    (hsize : size ≤ str.length) (hfit : c.fits size) :
    ∀ (fuel i : Nat), 1 ≤ fuel → size + 1 ≤ fuel + i →
      (∃ p, i ≤ p ∧ p + 5 ≤ size ∧ str[p]? = some ADDRESS_INDICATOR
          ∧ addressSum str p = some address
          ∧ (∀ j, i ≤ j → j < p → str[j]? = some ADDRESS_INDICATOR →
              addressSum str j ≠ some address)
          ∧ gps_findAddress_loop c str size address fuel i = some (p : Int))
      ∨ ((∀ j, i ≤ j → j < size → str[j]? = some ADDRESS_INDICATOR →
              addressSum str j ≠ some address ∨ size < j + 5)
          ∧ (gps_findAddress_loop c str size address fuel i = some (toInt32 c.GPS_ERROR)
              ∨ (gps_findAddress_loop c str size address fuel i = none
                  ∧ ∃ j, i ≤ j ∧ j + 5 = size ∧ str[j]? = some ADDRESS_INDICATOR
                      ∧ str.length ≤ size))) := by
  obtain ⟨hM, hE, h31⟩ := hfit
  intro fuel
  induction fuel with
  | zero => intro i h; omega
  | succ fuel ih =>
    intro i _ hfuel
    rw [gps_findAddress_loop]
    rcases gps_findIndex_cases c str size i ADDRESS_INDICATOR hsize with
      ⟨h, hall⟩ | ⟨a, h, h1, h2, h3, h4⟩
    · right
      rw [h]
      exact ⟨fun j hj1 hj2 hj3 => absurd hj3 (hall j hj1 hj2), Or.inl (by simp)⟩
    · rw [h]
      have hne : ¬ c.NOT_FOUND = a := by omega
      have hadd5 : c.add a 5 = a + 5 := c.add_of_lt (by omega)
      have hadd4 : c.add a 4 = a + 4 := c.add_of_lt (by omega)
      have hadd3 : c.add a 3 = a + 3 := c.add_of_lt (by omega)
      have hadd1 : c.add a 1 = a + 1 := c.add_of_lt (by omega)
      have hsub : c.sub (a + 1) 1 = a := by rw [c.sub_of_le (by omega) (by omega)]; omega
      simp only [hne, false_or, hadd5, hadd4, hadd3, hadd1, hsub]
      by_cases hshort : a + 5 > size
      · right
        simp only [hshort, if_true]
        refine ⟨fun j hj1 hj2 hj3 => Or.inr ?_, Or.inl trivial⟩
        by_cases hja : j < a
        · exact absurd hj3 (h4 j hj1 hja)
        · omega
      · simp only [hshort, if_false]
        have h3' : a + 3 < str.length := by omega
        have h4' : a + 4 < str.length := by omega
        by_cases h5' : a + 5 < str.length
        · rw [List.getElem?_eq_getElem h3', List.getElem?_eq_getElem h4',
            List.getElem?_eq_getElem h5']
          have hsum : addressSum str a = some (str[a + 3] + str[a + 4] + str[a + 5]) := by
            simp [addressSum, List.getElem?_eq_getElem h3', List.getElem?_eq_getElem h4',
              List.getElem?_eq_getElem h5']
          by_cases hmatch : address = str[a + 3] + str[a + 4] + str[a + 5]
          · left
            refine ⟨a, h1, by omega, h3, by rw [hsum, hmatch], ?_, ?_⟩
            · intro j hj1 hj2 hj3
              exact absurd hj3 (h4 j hj1 hj2)
            · have hint : toInt32 (a : Int) = (a : Int) := toInt32_of_lt (by omega) (by omega)
              simp [hmatch, hint]
          · have hstep : (if address ≠ str[a + 3] + str[a + 4] + str[a + 5] then
                  gps_findAddress_loop c str size address fuel (a + 1)
                else some (toInt32 (a : Int)))
                = gps_findAddress_loop c str size address fuel (a + 1) := by
              simp [hmatch]
            have hnot : addressSum str a ≠ some address := by
              rw [hsum]
              intro heq
              exact hmatch (Option.some.inj heq).symm
            simp only [hstep]
            rcases ih (a + 1) (by omega) (by omega) with
              ⟨p, e1, e2, e3, e4, e5, e6⟩ | ⟨e1, e2⟩
            · left
              refine ⟨p, by omega, e2, e3, e4, fun j hj1 hj2 hj3 => ?_, e6⟩
              rcases Nat.lt_trichotomy j a with hlt | heq | hgt
              · exact absurd hj3 (h4 j hj1 hlt)
              · rw [heq]; exact hnot
              · exact e5 j (by omega) hj2 hj3
            · right
              refine ⟨fun j hj1 hj2 hj3 => ?_, ?_⟩
              · rcases Nat.lt_trichotomy j a with hlt | heq | hgt
                · exact absurd hj3 (h4 j hj1 hlt)
                · rw [heq]; exact Or.inl hnot
                · exact e1 j (by omega) hj2 hj3
              · rcases e2 with e2 | ⟨e2, j, e3, e4, e5, e6⟩
                · exact Or.inl e2
                · exact Or.inr ⟨e2, j, by omega, e4, e5, e6⟩
        · right
          have hnone : str[a + 5]? = none := List.getElem?_eq_none (by omega)
          have hsum : addressSum str a = none := by
            simp [addressSum, hnone]
          rw [List.getElem?_eq_getElem h3', List.getElem?_eq_getElem h4', hnone]
          refine ⟨fun j hj1 hj2 hj3 => ?_, Or.inr ⟨rfl, a, h1, by omega, h3, by omega⟩⟩
          rcases Nat.lt_trichotomy j a with hlt | heq | hgt
          · exact absurd hj3 (h4 j hj1 hlt)
          · rw [heq, hsum]; exact Or.inl (by simp)
          · exact Or.inr (by omega)

/-- C9. On a buffer holding `size` bytes that the build can index:
(1) when `gps_findAddress` returns a value other than `NOT_FOUND`, that value is an
index `p ≥ startIndex` with `str[p] = '$'`, `str[p+3] + str[p+4] + str[p+5]` equal to the
requested kind, and no `$` in `[startIndex, p)` has a matching sum;
(2) the first `$` with a matching sum, when its three characters lie within `size`, is
what is returned;
(3) when no `$` in `[startIndex, size)` has a matching sum, the result is `NOT_FOUND`
(for a marker exactly five bytes before `size`, the byte at index `size` has to be in
the buffer for the call to be defined). -/
theorem gps_findAddress_spec (c : Target) (str : List Nat) (size startIndex address : Nat)
    (hsize : size ≤ str.length) (hfit : c.fits size) :
    (∀ r, gps_findAddress c str size startIndex address = some r →
        r ≠ toInt32 c.GPS_ERROR →
        ∃ p : Nat, r = (p : Int) ∧ startIndex ≤ p ∧ p < size
          ∧ str[p]? = some ADDRESS_INDICATOR ∧ addressSum str p = some address
          ∧ ∀ j, startIndex ≤ j → j < p → str[j]? = some ADDRESS_INDICATOR →
              addressSum str j ≠ some address)
    ∧ (∀ p, startIndex ≤ p → p + 5 ≤ size → str[p]? = some ADDRESS_INDICATOR →
        addressSum str p = some address →
        (∀ j, startIndex ≤ j → j < p → str[j]? = some ADDRESS_INDICATOR →
            addressSum str j ≠ some address) →
        gps_findAddress c str size startIndex address = some (p : Int))
    ∧ ((∀ j, j + 5 = size → str[j]? = some ADDRESS_INDICATOR → size < str.length) →
        (∀ j, startIndex ≤ j → j < size → str[j]? = some ADDRESS_INDICATOR →
            addressSum str j ≠ some address) →
        gps_findAddress c str size startIndex address = some (toInt32 c.GPS_ERROR)) := by
  have hcases := gps_findAddress_loop_cases c str size address hsize hfit (size + 1)
    startIndex (by omega) (by omega)
  unfold gps_findAddress
  refine ⟨?_, ?_, ?_⟩
  · intro r hr hne
    rcases hcases with ⟨p, e1, e2, e3, e4, e5, e6⟩ | ⟨_, e2 | ⟨e2, _⟩⟩
    · rw [e6] at hr
      exact ⟨p, (Option.some.inj hr).symm, e1, by omega, e3, e4, e5⟩
    · rw [e2] at hr
      exact absurd (Option.some.inj hr).symm hne
    · rw [e2] at hr
      exact absurd hr (by simp)
  · intro p h1 h2 h3 h4 h5
    rcases hcases with ⟨p', e1, e2, e3, e4, e5, e6⟩ | ⟨e1, _⟩
    · rcases Nat.lt_trichotomy p' p with hlt | heq | hgt
      · exact absurd e4 (h5 p' e1 hlt e3)
      · rw [e6, heq]
      · exact absurd h4 (e5 p h1 hgt h3)
    · rcases e1 p h1 (by omega) h3 with e | e
      · exact absurd h4 e
      · omega
  · intro hend hall
    rcases hcases with ⟨p, e1, e2, e3, e4, _, _⟩ | ⟨_, e2 | ⟨_, j, e3, e4, e5, e6⟩⟩
    · exact absurd e4 (hall p e1 (by omega) e3)
    · exact e2
    · have := hend j e4 e5
      omega

/-- Two sentences in one stream: RMC is found at the second `$` (index 15), VTG is not
found. -/
theorem gps_findAddress_spec_witness :
    gps_findAddress shipped (bytes "$GPGGA,1,2*00\r\n$GPRMC,3,4*00\r\n") 30 0 GPS_GPRMC
        = some 15
      ∧ gps_findAddress shipped (bytes "$GPGGA,1,2*00\r\n$GPRMC,3,4*00\r\n") 30 0 GPS_GPVTG
        = some (toInt32 shipped.GPS_ERROR) :=
  ⟨(gps_findAddress_spec shipped (bytes "$GPGGA,1,2*00\r\n$GPRMC,3,4*00\r\n") 30 0 GPS_GPRMC
      (by decide) (by decide)).2.1 15 (by decide) (by decide) (by decide) (by decide)
      (by intro j h1 h2; interval_cases j <;> decide),
    (gps_findAddress_spec shipped (bytes "$GPGGA,1,2*00\r\n$GPRMC,3,4*00\r\n") 30 0 GPS_GPVTG
      (by decide) (by decide)).2.2 (by intro j h1; have : j = 25 := by omega
                                       subst this; decide)
      (by intro j h1 h2; interval_cases j <;> decide)⟩

/-- C10. The 5-byte stream `$GPRM` with `size = 5`: the guard `i + 5 > size` lets the
marker at index 0 through and the byte at index 5, which is not part of the stream, is
read; with a `C` stored behind the stream the sentence is reported as found. -/
theorem gps_findAddress_reads_past_size :
    gps_findAddress shipped (bytes "$GPRM") 5 0 GPS_GPRMC = none
      ∧ gps_findAddress shipped (bytes "$GPRMC") 5 0 GPS_GPRMC = some 0 := by
  decide

/-! ## The query -/

theorem gps_findIndex_isSome (c : Target) (str : List Nat) (size startIndex value : Nat)
    (hsize : size ≤ str.length) :
    ∃ r, gps_findIndex c str size startIndex value = some r := by
  rcases gps_findIndex_cases c str size startIndex value hsize with ⟨h, _⟩ | ⟨r, h, _⟩
  · exact ⟨_, h⟩
  · exact ⟨r, h⟩

theorem gps_findXthIndex_loop_isSome (c : Target) (str : List Nat) (size value Xth : Nat)
    (hsize : size ≤ str.length) (hX : Xth < 256) :
    ∀ fuel s k, k < 256 → (if k < Xth then Xth - k else 256 - k + Xth) ≤ fuel →
      ∃ r, gps_findXthIndex_loop c str size value Xth fuel s k = some r := by
  intro fuel
  induction fuel with
  | zero =>
    intro s k hk hfuel
    split at hfuel <;> omega
  | succ fuel ih =>
    intro s k hk hfuel
    rw [gps_findXthIndex_loop]
    obtain ⟨r, hr⟩ := gps_findIndex_isSome c str size s value hsize
    rw [hr]
    by_cases hnf : c.NOT_FOUND = r
    · simp only [if_pos hnf]
      exact ⟨_, rfl⟩
    · by_cases hlast : (k + 1) % 256 = Xth
      · simp only [if_neg hnf, if_neg (not_not.mpr hlast)]
        exact ⟨_, rfl⟩
      · simp only [hnf, if_false, ne_eq, hlast, not_false_eq_true, if_true]
        apply ih
        · omega
        · split at hfuel <;> split <;> omega

theorem gps_findXthIndex_isSome (c : Target) (str : List Nat) (size startIndex value Xth : Nat)
    (hsize : size ≤ str.length) (hX : Xth < 256) :
    ∃ r, gps_findXthIndex c str size startIndex value Xth = some r := by
  unfold gps_findXthIndex
  apply gps_findXthIndex_loop_isSome c str size value Xth hsize hX
  · omega
  · split <;> omega

theorem gps_findAddress_isSome (c : Target) (str : List Nat) (size startIndex address : Nat)
    (hsize : size ≤ str.length) (hfit : c.fits size)
    (hend : ∀ j, j + 5 = size → str[j]? = some ADDRESS_INDICATOR → size < str.length) :
    ∃ r, gps_findAddress c str size startIndex address = some r := by
  unfold gps_findAddress
  rcases gps_findAddress_loop_cases c str size address hsize hfit (size + 1)
    startIndex (by omega) (by omega) with
    ⟨p, _, _, _, _, _, e⟩ | ⟨_, e | ⟨_, j, _, e4, e5, e6⟩⟩
  · exact ⟨_, e⟩
  · exact ⟨_, e⟩
  · have := hend j e4 e5
    omega

theorem gps_controlChecksum_isSome (c : Target) (str : List Nat) (size startIndex : Nat)
    (hsize : size ≤ str.length) (hfit : c.fits size)
    (hstar : ∀ j, j < size → str[j]? = some CHECKSUM_INDICATOR → j + 2 < str.length) :
    ∃ st, gps_controlChecksum c str size startIndex = some st := by
  unfold gps_controlChecksum
  rcases gps_controlChecksum_loop_cases c str (size - c.add startIndex 1)
    (c.add startIndex 1) 0 (by omega) with ⟨h, _⟩ | ⟨j, h1, h2, h3, _, h5⟩
  · exact ⟨_, h⟩
  · have hj : j < size := by omega
    have hlen := hstar j hj h3
    obtain ⟨hM, _, _⟩ := hfit
    rw [h5, gps_controlChecksum_loop, h3]
    simp only [if_true]
    rw [c.add_of_lt (show j + 1 < c.SIZE_MOD by omega),
      c.add_of_lt (show j + 2 < c.SIZE_MOD by omega),
      List.getElem?_eq_getElem (show j + 1 < str.length by omega),
      List.getElem?_eq_getElem hlen]
    exact ⟨_, rfl⟩

theorem gps_getTable_eq_none (address : Nat) (hkind : address ∉ supportedKinds) :
    gps_getTable address = none := by
  simp only [supportedKinds, List.mem_cons, List.mem_singleton, not_or, List.not_mem_nil,
    or_false] at hkind
  obtain ⟨h1, h2, h3, h4, h5, h6⟩ := hkind
  simp [gps_getTable, h1, h2, h3, h4, h5, h6]

/-- C3. For a kind that is none of RMC, VTG, GGA, GSA, GSV, GLL, on a buffer holding
`size` bytes that the build can index, with a field index that is a `uint8_t`:
`gps_getTable` returns no table and `gps_getInfo` returns the error value, carrying no
decoded payload.  (The call has to be defined: a `$` exactly five bytes before `size`,
and with checksum control a `*` in the last two bytes, need the bytes they make the code
read to be in the buffer.) -/
theorem gps_getInfo_no_table (c : Target) (str : List Nat) (size address index : Nat)
    (hsize : size ≤ str.length) (hfit : c.fits size) (hidx : index < 256)
    (hend : ∀ j, j + 5 = size → str[j]? = some ADDRESS_INDICATOR → size < str.length)
    (hstar : c.GPS_CHECKSUM_CONTROL_ON = true →
      ∀ j, j < size → str[j]? = some CHECKSUM_INDICATOR → j + 2 < str.length)
    (hkind : address ∉ supportedKinds) :
    gps_getTable address = none
      ∧ gps_getInfo c str size address index = some .error := by
  have htab := gps_getTable_eq_none address hkind
  refine ⟨htab, ?_⟩
  obtain ⟨r, hr⟩ := gps_findAddress_isSome c str size 0 address hsize hfit hend
  unfold gps_getInfo
  rw [hr]
  simp only
  obtain ⟨f, hf⟩ := gps_findXthIndex_isSome c str size (c.toSize r)
    VALUE_SEPERATOR_HEXADECIMAL index hsize hidx
  obtain ⟨l, hl⟩ := gps_findIndex_isSome c str size (c.add f 1)
    VALUE_SEPERATOR_HEXADECIMAL hsize
  cases hon : c.GPS_CHECKSUM_CONTROL_ON with
  | false =>
    simp [hf, hl, htab]
  | true =>
    obtain ⟨st, hst⟩ := gps_controlChecksum_isSome c str size (c.toSize r) hsize hfit
      (hstar hon)
    cases st <;> simp [hst, hf, hl, htab]

/-- Kinds 0 and 264 (`X + X + X`) have no table; the query returns the error value with
checksum control off and on. -/
theorem gps_getInfo_no_table_witness :
    (gps_getTable 0 = none
        ∧ gps_getInfo shipped (bytes "$GPRMC,123519,A,4807.038") 24 0 1 = some .error)
      ∧ (gps_getTable 264 = none
        ∧ gps_getInfo checked (bytes "$GPXXX,1,2*00") 13 264 1 = some .error) :=
  ⟨gps_getInfo_no_table shipped (bytes "$GPRMC,123519,A,4807.038") 24 0 1 (by decide)
      (by decide) (by decide) (by intro j h; have : j = 19 := by omega
                                  subst this; decide)
      (by intro h; exact absurd h (by decide)) (by decide),
    gps_getInfo_no_table checked (bytes "$GPXXX,1,2*00") 13 264 1 (by decide)
      (by decide) (by decide) (by intro j h; have : j = 8 := by omega
                                  subst this; decide)
      (by intro _ j h; interval_cases j <;> decide) (by decide)⟩

/-- With checksum control off and a schema table present, the discriminant of whatever
`gps_getInfo` returns is the table entry of the field index; no outcome of the scans
changes it. -/
theorem gps_getInfo_typeOfData (c : Target) (str : List Nat) (size address index : Nat)
    (t : List gps_infoType_t) (d : gps_infoData_t)
    (hoff : c.GPS_CHECKSUM_CONTROL_ON = false) (htab : gps_getTable address = some t)
    (hd : gps_getInfo c str size address index = some d) :
    index ≠ 0 ∧ t[index - 1]? = some d.typeOfData := by
  unfold gps_getInfo at hd
  cases h1 : gps_findAddress c str size 0 address with
  | none => simp [h1] at hd
  | some r =>
    simp only [h1, hoff] at hd
    cases h2 : gps_findXthIndex c str size (c.toSize r) VALUE_SEPERATOR_HEXADECIMAL index with
    | none => simp [h2] at hd
    | some f =>
      cases h3 : gps_findIndex c str size (c.add f 1) VALUE_SEPERATOR_HEXADECIMAL with
      | none => simp [h2, h3] at hd
      | some l =>
        simp [h2, h3, htab] at hd
        unfold gps_getData at hd
        by_cases h0 : index = 0
        · simp [h0] at hd
        · refine ⟨h0, ?_⟩
          simp only [h0, if_false] at hd
          cases h4 : t[index - 1]? with
          | none => simp [h4] at hd
          | some ty =>
            cases ty <;> simp [h4] at hd
            · obtain ⟨x, _, hx⟩ := hd; rw [← hx]; rfl
            · obtain ⟨x, _, hx⟩ := hd; rw [← hx]; rfl
            · obtain ⟨x, _, hx⟩ := hd; rw [← hx]; rfl
            · rw [← hd]; rfl

/-- C1. A stream holding only a GGA sentence, queried for field 2 of RMC: the locator
reports `NOT_FOUND`, and `gps_getInfo` goes on with the sentinel as an index and returns
the byte at index 0 as a character value instead of the error value; on no build with
checksum control off is the result the error value. -/
theorem gps_getInfo_sentence_missing :
    gps_findAddress shipped (bytes "$GPGGA,1,2*00") 13 0 GPS_GPRMC
        = some (toInt32 shipped.GPS_ERROR)
      ∧ gps_getInfo shipped (bytes "$GPGGA,1,2*00") 13 GPS_GPRMC 2 = some (.cdata 36)
      ∧ ∀ c : Target, c.GPS_CHECKSUM_CONTROL_ON = false →
          gps_getInfo c (bytes "$GPGGA,1,2*00") 13 GPS_GPRMC 2 ≠ some .error := by
  refine ⟨by decide, by decide, fun c hoff h => ?_⟩
  have hty := (gps_getInfo_typeOfData c _ 13 GPS_GPRMC 2 typeTableGPRMC .error hoff
    (by decide) h).2
  exact absurd hty (by decide)

/-- C2. An RMC sentence with a single separator, queried for field 2: the search for the
second `,` reports `NOT_FOUND`, and `gps_getInfo` goes on with the sentinel as an index
and returns the byte at index 0 as a character value instead of the error value; on no
build with checksum control off is the result the error value. -/
theorem gps_getInfo_separator_missing :
    gps_findAddress shipped (bytes "$GPRMC,123519") 13 0 GPS_GPRMC = some 0
      ∧ gps_findXthIndex shipped (bytes "$GPRMC,123519") 13 0 VALUE_SEPERATOR_HEXADECIMAL 2
        = some shipped.NOT_FOUND
      ∧ gps_getInfo shipped (bytes "$GPRMC,123519") 13 GPS_GPRMC 2 = some (.cdata 36)
      ∧ ∀ c : Target, c.GPS_CHECKSUM_CONTROL_ON = false →
          gps_getInfo c (bytes "$GPRMC,123519") 13 GPS_GPRMC 2 ≠ some .error := by
  refine ⟨by decide, by decide, by decide, fun c hoff h => ?_⟩
  have hty := (gps_getInfo_typeOfData c _ 13 GPS_GPRMC 2 typeTableGPRMC .error hoff
    (by decide) h).2
  exact absurd hty (by decide)

/-! ## Decoding a located field -/

theorem gps_findIndex_eq_of_first (c : Target) (str : List Nat) (size startIndex value r : Nat)
    (hsize : size ≤ str.length) (h1 : startIndex ≤ r) (h2 : r < size)
    (h3 : str[r]? = some value)
    (h4 : ∀ j, startIndex ≤ j → j < r → str[j]? ≠ some value) :
    gps_findIndex c str size startIndex value = some r := by
  rcases gps_findIndex_cases c str size startIndex value hsize with
    ⟨_, hall⟩ | ⟨r', h, e1, e2, e3, e4⟩
  · exact absurd h3 (hall r h1 h2)
  · rcases Nat.lt_trichotomy r' r with hlt | heq | hgt
    · exact absurd e3 (h4 r' e1 hlt)
    · rw [h, heq]
    · exact absurd h3 (e4 r h1 hgt)

theorem occurrences_succ_of_occursAt (str : List Nat) (value s r : Nat)
    (h : occursAt str value s r) :
    occurrences str value s (r + 1) = occurrences str value s r + 1 := by
  unfold occurrences
  rw [Nat.count_succ]
  simp [h]

theorem occurrences_mono (str : List Nat) (value s : Nat) {x y : Nat} (h : x ≤ y) :
    occurrences str value s x ≤ occurrences str value s y :=
  Nat.count_monotone _ h

theorem gps_findXthIndex_eq_of_nth (c : Target) (str : List Nat)
    (size startIndex value n r : Nat) (hsize : size ≤ str.length) (hE : size ≤ c.NOT_FOUND)
    (hM : size < c.SIZE_MOD) (h1 : 1 ≤ n) (h255 : n ≤ 255) (hr : r < size)
    (hocc : occursAt str value startIndex r)
    (hcount : occurrences str value startIndex r = n - 1) :
    gps_findXthIndex c str size startIndex value n = some r := by
  have hsucc := occurrences_succ_of_occursAt str value startIndex r hocc
  have hle := occurrences_mono str value startIndex (show r + 1 ≤ size by omega)
  have heq := gps_findXthIndex_eq_times c str size startIndex value n hsize hM h1 h255
  obtain ⟨r', e1, e2, e3, e4⟩ :=
    (findIndexTimes_nth c str size value hsize hE n startIndex h1).1 (by omega)
  rw [← heq] at e1
  have hsucc' := occurrences_succ_of_occursAt str value startIndex r' e3
  rcases Nat.lt_trichotomy r' r with hlt | heq | hgt
  · have := occurrences_mono str value startIndex (show r' + 1 ≤ r by omega)
    omega
  · rw [e1, heq]
  · have := occurrences_mono str value startIndex (show r + 1 ≤ r' by omega)
    omega

/-- With checksum control off, `gps_getInfo` is `gps_getData` on the separators that the
three scans deliver. -/
theorem gps_getInfo_eq_getData (c : Target) (str : List Nat) (size address index s a b : Nat)
    (t : List gps_infoType_t) (hoff : c.GPS_CHECKSUM_CONTROL_ON = false)
    (hs : s < c.SIZE_MOD)
    (h1 : gps_findAddress c str size 0 address = some (s : Int))
    (h2 : gps_findXthIndex c str size s VALUE_SEPERATOR_HEXADECIMAL index = some a)
    (h3 : gps_findIndex c str size (c.add a 1) VALUE_SEPERATOR_HEXADECIMAL = some b)
    (h4 : gps_getTable address = some t) :
    gps_getInfo c str size address index = gps_getData c str a b t index := by
  have hto : c.toSize (s : Int) = s := by
    rw [c.toSize_of_lt (by omega) (by omega)]
    omega
  unfold gps_getInfo
  simp [h1, hoff, hto, h2, h3, h4]

theorem gps_findAddress_eq_of_first_match (c : Target) (str : List Nat)
    (size startIndex address p : Nat) (hsize : size ≤ str.length) (hfit : c.fits size)
    (h1 : startIndex ≤ p) (h2 : p + 5 ≤ size) (h3 : str[p]? = some ADDRESS_INDICATOR)
    (h4 : addressSum str p = some address)
    (h5 : ∀ j, startIndex ≤ j → j < p → str[j]? = some ADDRESS_INDICATOR →
        addressSum str j ≠ some address) :
    gps_findAddress c str size startIndex address = some (p : Int) := by
  unfold gps_findAddress
  rcases gps_findAddress_loop_cases c str size address hsize hfit (size + 1)
    startIndex (by omega) (by omega) with ⟨p', e1, e2, e3, e4, e5, e6⟩ | ⟨e1, _⟩
  · rcases Nat.lt_trichotomy p' p with hlt | heq | hgt
    · exact absurd e4 (h5 p' e1 hlt e3)
    · rw [e6, heq]
    · exact absurd h4 (e5 p h1 hgt h3)
  · rcases e1 p h1 (by omega) h3 with e | e
    · exact absurd h4 e
    · omega

/-! ### One pass of the float converter -/

theorem gps_floatAscii2num_loop_digit (c : Target) (str : List Nat) (endIndex n i : Nat)
    (sum : ℚ) (float_index b : Nat) (hb : str[c.sub endIndex i]? = some b)
    (hne : b ≠ FLOAT_SEPERATION_INDICATOR) :
    gps_floatAscii2num_loop c str endIndex (n + 1) i sum false float_index
      = gps_floatAscii2num_loop c str endIndex n (i + 1)
          (sum + ((b : ℚ) - 48) * (10 : ℚ) ^ i) false float_index := by
  rw [gps_floatAscii2num_loop, hb]
  simp [hne]

theorem gps_floatAscii2num_loop_point (c : Target) (str : List Nat) (endIndex n i : Nat)
    (sum : ℚ) (float_flag : Bool) (float_index : Nat)
    (hb : str[c.sub endIndex i]? = some FLOAT_SEPERATION_INDICATOR) :
    gps_floatAscii2num_loop c str endIndex (n + 1) i sum float_flag float_index
      = gps_floatAscii2num_loop c str endIndex n (i + 1)
          (sum * (10 : ℚ) ^ (toInt32 (c.toSize (-(i : Int))))) true (i % 256) := by
  rw [gps_floatAscii2num_loop, hb]
  simp

theorem gps_floatAscii2num_loop_digit_after (c : Target) (str : List Nat)
    (endIndex n i : Nat) (sum : ℚ) (float_index b : Nat)
    (hb : str[c.sub endIndex i]? = some b) (hne : b ≠ FLOAT_SEPERATION_INDICATOR) :
    gps_floatAscii2num_loop c str endIndex (n + 1) i sum true float_index
      = gps_floatAscii2num_loop c str endIndex n (i + 1)
          (sum + ((b : ℚ) - 48) * (10 : ℚ) ^ (c.sub (c.sub i 1) float_index))
          true float_index := by
  rw [gps_floatAscii2num_loop, hb]
  simp [hne]

/-! ### The quoted RMC sentence -/

theorem rmcSentence_located (c : Target) (hfit : c.fits 68) :
    gps_findAddress c rmcSentence 68 0 GPS_GPRMC = some ((0 : Nat) : Int) :=
  gps_findAddress_eq_of_first_match c rmcSentence 68 0 GPS_GPRMC 0 (by decide) hfit
    (by decide) (by decide) (by decide) (by decide) (by intro j h1 h2; omega)

theorem rmcSentence_read (c : Target) (hfit : c.fits 68) (e i : Nat) (b : Nat)
    (hi : i ≤ e) (he : e < 68) (hb : rmcSentence[e - i]? = some b) :
    rmcSentence[c.sub e i]? = some b := by
  rw [c.sub_of_le hi (by have := hfit.1; omega)]
  exact hb

theorem rmcSentence_time (c : Target) (hfit : c.fits 68) :
    gps_floatAscii2num c rmcSentence 7 12 = some 123519 := by
  have hM := hfit.1
  have e0 : c.add (c.sub 12 7) 1 = 6 := by
    rw [c.sub_of_le (by omega) (by omega), c.add_of_lt (by omega)]
  rw [gps_floatAscii2num, e0,
    gps_floatAscii2num_loop_digit c _ _ _ _ _ _ 57
      (rmcSentence_read c hfit 12 0 57 (by decide) (by decide) (by decide)) (by decide),
    gps_floatAscii2num_loop_digit c _ _ _ _ _ _ 49
      (rmcSentence_read c hfit 12 _ 49 (by decide) (by decide) (by decide)) (by decide),
    gps_floatAscii2num_loop_digit c _ _ _ _ _ _ 53
      (rmcSentence_read c hfit 12 _ 53 (by decide) (by decide) (by decide)) (by decide),
    gps_floatAscii2num_loop_digit c _ _ _ _ _ _ 51
      (rmcSentence_read c hfit 12 _ 51 (by decide) (by decide) (by decide)) (by decide),
    gps_floatAscii2num_loop_digit c _ _ _ _ _ _ 50
      (rmcSentence_read c hfit 12 _ 50 (by decide) (by decide) (by decide)) (by decide),
    gps_floatAscii2num_loop_digit c _ _ _ _ _ _ 49
      (rmcSentence_read c hfit 12 _ 49 (by decide) (by decide) (by decide)) (by decide),
    gps_floatAscii2num_loop]
  norm_num

theorem rmcSentence_latitude (c : Target) (hfit : c.fits 68)
    (hexp : toInt32 (c.toSize (-3)) = -3) :
    gps_floatAscii2num c rmcSentence 16 23 = some (4807038 / 1000) := by
  have hM := hfit.1
  have e0 : c.add (c.sub 23 16) 1 = 8 := by
    rw [c.sub_of_le (by omega) (by omega), c.add_of_lt (by omega)]
  have i4 : c.sub 4 1 = 3 := by rw [c.sub_of_le (by omega) (by omega)]
  have i5 : c.sub 5 1 = 4 := by rw [c.sub_of_le (by omega) (by omega)]
  have i6 : c.sub 6 1 = 5 := by rw [c.sub_of_le (by omega) (by omega)]
  have i7 : c.sub 7 1 = 6 := by rw [c.sub_of_le (by omega) (by omega)]
  have d4 : c.sub 3 3 = 0 := by rw [c.sub_of_le (by omega) (by omega)]
  have d5 : c.sub 4 3 = 1 := by rw [c.sub_of_le (by omega) (by omega)]
  have d6 : c.sub 5 3 = 2 := by rw [c.sub_of_le (by omega) (by omega)]
  have d7 : c.sub 6 3 = 3 := by rw [c.sub_of_le (by omega) (by omega)]
  rw [gps_floatAscii2num, e0,
    gps_floatAscii2num_loop_digit c _ _ _ _ _ _ 56
      (rmcSentence_read c hfit 23 0 56 (by decide) (by decide) (by decide)) (by decide),
    gps_floatAscii2num_loop_digit c _ _ _ _ _ _ 51
      (rmcSentence_read c hfit 23 _ 51 (by decide) (by decide) (by decide)) (by decide),
    gps_floatAscii2num_loop_digit c _ _ _ _ _ _ 48
      (rmcSentence_read c hfit 23 _ 48 (by decide) (by decide) (by decide)) (by decide),
    gps_floatAscii2num_loop_point c _ _ _ _ _ _ _
      (rmcSentence_read c hfit 23 _ 46 (by decide) (by decide) (by decide)),
    gps_floatAscii2num_loop_digit_after c _ _ _ _ _ _ 55
      (rmcSentence_read c hfit 23 _ 55 (by decide) (by decide) (by decide)) (by decide),
    gps_floatAscii2num_loop_digit_after c _ _ _ _ _ _ 48
      (rmcSentence_read c hfit 23 _ 48 (by decide) (by decide) (by decide)) (by decide),
    gps_floatAscii2num_loop_digit_after c _ _ _ _ _ _ 56
      (rmcSentence_read c hfit 23 _ 56 (by decide) (by decide) (by decide)) (by decide),
    gps_floatAscii2num_loop_digit_after c _ _ _ _ _ _ 52
      (rmcSentence_read c hfit 23 _ 52 (by decide) (by decide) (by decide)) (by decide),
    gps_floatAscii2num_loop]
  norm_num [hexp, i4, i5, i6, i7, d4, d5, d6, d7]

theorem rmcSentence_first_separator (c : Target) (hfit : c.fits 68) :
    gps_findXthIndex c rmcSentence 68 0 VALUE_SEPERATOR_HEXADECIMAL 1 = some 6 :=
  gps_findXthIndex_eq_of_nth c rmcSentence 68 0 VALUE_SEPERATOR_HEXADECIMAL 1 6 (by decide)
    hfit.2.1 (by have := hfit.1; omega) (by decide) (by decide) (by decide) (by decide)
    (by decide)

theorem rmcSentence_second_separator (c : Target) (hfit : c.fits 68) :
    gps_findXthIndex c rmcSentence 68 0 VALUE_SEPERATOR_HEXADECIMAL 2 = some 13 :=
  gps_findXthIndex_eq_of_nth c rmcSentence 68 0 VALUE_SEPERATOR_HEXADECIMAL 2 13 (by decide)
    hfit.2.1 (by have := hfit.1; omega) (by decide) (by decide) (by decide) (by decide)
    (by decide)

theorem rmcSentence_third_separator (c : Target) (hfit : c.fits 68) :
    gps_findXthIndex c rmcSentence 68 0 VALUE_SEPERATOR_HEXADECIMAL 3 = some 15 :=
  gps_findXthIndex_eq_of_nth c rmcSentence 68 0 VALUE_SEPERATOR_HEXADECIMAL 3 15 (by decide)
    hfit.2.1 (by have := hfit.1; omega) (by decide) (by decide) (by decide) (by decide)
    (by decide)

/-- C4. With checksum control off, on any build that can index the 68-byte sentence,
`gps_getInfo` on the quoted RMC sentence with kind RMC and field index 1 returns the
float value `123519` (arithmetic carried out exactly). -/
theorem gps_getInfo_rmc_time (c : Target) (hoff : c.GPS_CHECKSUM_CONTROL_ON = false)
    (hfit : c.fits 68) :
    gps_getInfo c rmcSentence 68 GPS_GPRMC 1 = some (.fdata 123519) := by
  have hM := hfit.1
  have h3 : gps_findIndex c rmcSentence 68 (c.add 6 1) VALUE_SEPERATOR_HEXADECIMAL
      = some 13 := by
    rw [c.add_of_lt (by omega)]
    exact gps_findIndex_eq_of_first c rmcSentence 68 7 VALUE_SEPERATOR_HEXADECIMAL 13
      (by decide) (by decide) (by decide) (by decide)
      (by intro j h1 h2; interval_cases j <;> decide)
  rw [gps_getInfo_eq_getData c rmcSentence 68 GPS_GPRMC 1 0 6 13 typeTableGPRMC hoff
    (by omega) (rmcSentence_located c hfit) (rmcSentence_first_separator c hfit) h3
    (by decide)]
  have hget : typeTableGPRMC[1 - 1]? = some GPS_FLOAT_TYPE := by decide
  rw [gps_getData, if_neg (by decide), hget]
  simp only
  rw [c.add_of_lt (show 6 + 1 < c.SIZE_MOD by omega),
    c.sub_of_le (show 1 ≤ 13 by omega) (by omega)]
  rw [show 6 + 1 = 7 from rfl, show 13 - 1 = 12 from rfl, rmcSentence_time c hfit]
  rfl

/-- The shipped build decodes field 1 of the quoted RMC sentence as `123519`. -/
theorem gps_getInfo_rmc_time_witness :
    gps_getInfo shipped rmcSentence 68 GPS_GPRMC 1 = some (.fdata 123519) :=
  gps_getInfo_rmc_time shipped (by decide) (by decide)

/-- C5, as the code has it. With checksum control off, on any build that can index the
68-byte sentence, the status character `A` of the quoted RMC sentence is field index 2:
`gps_getInfo` with kind RMC and field index 2 returns the character value `'A'`. -/
theorem gps_getInfo_rmc_status (c : Target) (hoff : c.GPS_CHECKSUM_CONTROL_ON = false)
    (hfit : c.fits 68) :
    gps_getInfo c rmcSentence 68 GPS_GPRMC 2 = some (.cdata 65) := by
  have hM := hfit.1
  have h3 : gps_findIndex c rmcSentence 68 (c.add 13 1) VALUE_SEPERATOR_HEXADECIMAL
      = some 15 := by
    rw [c.add_of_lt (by omega)]
    exact gps_findIndex_eq_of_first c rmcSentence 68 14 VALUE_SEPERATOR_HEXADECIMAL 15
      (by decide) (by decide) (by decide) (by decide)
      (by intro j h1 h2; have : j = 14 := by omega
          subst this; decide)
  rw [gps_getInfo_eq_getData c rmcSentence 68 GPS_GPRMC 2 0 13 15 typeTableGPRMC hoff
    (by omega) (rmcSentence_located c hfit) (rmcSentence_second_separator c hfit) h3
    (by decide)]
  have hget : typeTableGPRMC[2 - 1]? = some GPS_CHARACTER_TYPE := by decide
  rw [gps_getData, if_neg (by decide), hget]
  simp only
  rw [c.add_of_lt (show 13 + 1 < c.SIZE_MOD by omega)]
  have hb : gps_getSingleChar rmcSentence (13 + 1) = some 65 := by decide
  rw [hb]
  rfl

/-- The shipped build decodes field 2 of the quoted RMC sentence as the character `A`. -/
theorem gps_getInfo_rmc_status_witness :
    gps_getInfo shipped rmcSentence 68 GPS_GPRMC 2 = some (.cdata 65) :=
  gps_getInfo_rmc_status shipped (by decide) (by decide)

/-- C5, as stated, fails: field index 3 of the quoted RMC sentence is the latitude, which
the RMC table types as a float; the result is the float `4807.038`, not the character
`'A'`.  With checksum control on, the query on this sentence returns the error value for
every field, also for the status field 2. -/
theorem gps_getInfo_rmc_field3 :
    gps_getInfo shipped rmcSentence 68 GPS_GPRMC 3 = some (.fdata (4807038 / 1000))
      ∧ gps_getInfo shipped rmcSentence 68 GPS_GPRMC 3 ≠ some (.cdata 65)
      ∧ gps_getInfo checked rmcSentence 68 GPS_GPRMC 3 = some .error
      ∧ gps_getInfo checked rmcSentence 68 GPS_GPRMC 2 = some .error := by
  have hfit : shipped.fits 68 := by decide
  have h3 : gps_findIndex shipped rmcSentence 68 (shipped.add 15 1)
      VALUE_SEPERATOR_HEXADECIMAL = some 24 := by decide
  have heq : gps_getInfo shipped rmcSentence 68 GPS_GPRMC 3
      = some (.fdata (4807038 / 1000)) := by
    rw [gps_getInfo_eq_getData shipped rmcSentence 68 GPS_GPRMC 3 0 15 24 typeTableGPRMC
      (by decide) (by decide) (rmcSentence_located shipped hfit)
      (rmcSentence_third_separator shipped hfit) h3 (by decide)]
    have hget : typeTableGPRMC[3 - 1]? = some GPS_FLOAT_TYPE := by decide
    rw [gps_getData, if_neg (by decide), hget]
    simp only
    rw [show shipped.add 15 1 = 16 by decide, show shipped.sub 24 1 = 23 by decide,
      rmcSentence_latitude shipped hfit (by decide)]
    rfl
  refine ⟨heq, ?_, by decide, by decide⟩
  rw [heq]
  intro h
  cases h
/-! ## The value converters -/

theorem bytesBetween_self (str : List Nat) (lo : Nat) : bytesBetween str lo lo = [] := by
  simp [bytesBetween]

theorem bytesBetween_step (str : List Nat) (lo hi : Nat) (h : lo < hi)
    (hlen : lo < str.length) :
    bytesBetween str lo hi = str[lo] :: bytesBetween str (lo + 1) hi := by
  unfold bytesBetween
  obtain ⟨k, hk⟩ : ∃ k, hi - lo = k + 1 := ⟨hi - lo - 1, by omega⟩
  have hk' : hi - (lo + 1) = k := by omega
  rw [hk, hk', List.drop_eq_getElem_cons hlen, List.take_succ_cons]

theorem bytesBetween_length (str : List Nat) (lo hi : Nat) (hlen : hi ≤ str.length) :
    (bytesBetween str lo hi).length = hi - lo := by
  unfold bytesBetween
  rw [List.length_take, List.length_drop]
  omega

theorem digitsAt_step (str : List Nat) (lo hi : Nat) (h : lo < hi) (hlen : lo < str.length)
    (hdig : digitsAt str lo hi) :
    (48 ≤ str[lo] ∧ str[lo] ≤ 57) ∧ digitsAt str (lo + 1) hi := by
  unfold digitsAt at hdig ⊢
  rw [bytesBetween_step str lo hi h hlen] at hdig
  exact ⟨hdig _ (List.mem_cons_self _ _), fun b hb => hdig b (List.mem_cons_of_mem _ hb)⟩

theorem digitsAt_suffix (str : List Nat) (hi : Nat) (hlen : hi ≤ str.length) :
    ∀ k lo, lo + k ≤ hi → digitsAt str lo hi → digitsAt str (lo + k) hi := by
  intro k
  induction k with
  | zero => intro lo _ h; exact h
  | succ k ih =>
    intro lo hle h
    have := (digitsAt_step str lo hi (by omega) (by omega) h).2
    have := ih (lo + 1) (by omega) this
    rw [show lo + (k + 1) = lo + 1 + k by omega]
    exact this

theorem digitsAt_at (str : List Nat) (lo hi j : Nat) (hlen : hi ≤ str.length)
    (h1 : lo ≤ j) (h2 : j < hi) (hdig : digitsAt str lo hi) :
    48 ≤ str[j] ∧ str[j] ≤ 57 := by
  have := digitsAt_suffix str hi hlen (j - lo) lo (by omega) hdig
  rw [show lo + (j - lo) = j by omega] at this
  exact (digitsAt_step str j hi h2 (by omega) this).1

theorem decimalValue_lt (str : List Nat) (hi : Nat) (hlen : hi ≤ str.length) :
    ∀ n lo, lo + n = hi → digitsAt str lo hi →
      decimalValue (bytesBetween str lo hi) < 10 ^ n := by
  intro n
  induction n with
  | zero =>
    intro lo h _
    have : lo = hi := by omega
    subst this
    simp [bytesBetween_self, decimalValue]
  | succ n ih =>
    intro lo h hdig
    have hlo : lo < str.length := by omega
    rw [bytesBetween_step str lo hi (by omega) hlo, decimalValue,
      bytesBetween_length str (lo + 1) hi hlen]
    have hstep := digitsAt_step str lo hi (by omega) hlo hdig
    have hrest := ih (lo + 1) (by omega) hstep.2
    have hd := hstep.1
    have hn : hi - (lo + 1) = n := by omega
    rw [hn]
    have h9 : (str[lo] - 48) * 10 ^ n ≤ 9 * 10 ^ n := Nat.mul_le_mul_right _ (by omega)
    have hpow : 10 ^ (n + 1) = 9 * 10 ^ n + 10 ^ n := by ring
    omega

theorem gps_ascii2num_loop_digits (c : Target) (str : List Nat) (e : Nat)
    (he : e < c.SIZE_MOD) (hlen : e < str.length) :
    ∀ n i, i + n ≤ e + 1 → i + n ≤ 9 → digitsAt str (e + 1 - (i + n)) (e + 1) →
      gps_ascii2num_loop c str e n i (decimalValue (bytesBetween str (e + 1 - i) (e + 1)))
        = some (decimalValue (bytesBetween str (e + 1 - (i + n)) (e + 1))) := by
  intro n
  induction n with
  | zero => intro i _ _ _; rfl
  | succ n ih =>
    intro i hi h9 hdig
    have hidx : e - i < str.length := by omega
    have hstep := bytesBetween_step str (e - i) (e + 1) (by omega) hidx
    have hrest : e - i + 1 = e + 1 - i := by omega
    have hlenr := bytesBetween_length str (e + 1 - i) (e + 1) (by omega)
    have hd := digitsAt_at str (e + 1 - (i + (n + 1))) (e + 1) (e - i) (by omega) (by omega)
      (by omega) hdig
    have hnext : decimalValue (bytesBetween str (e + 1 - (i + 1)) (e + 1))
        = decimalValue (bytesBetween str (e + 1 - i) (e + 1)) + (str[e - i] - 48) * 10 ^ i := by
      rw [show e + 1 - (i + 1) = e - i by omega, hstep, decimalValue, hrest, hlenr,
        show e + 1 - (e + 1 - i) = i by omega]
      omega
    have hsuf := digitsAt_suffix str (e + 1) (by omega) n (e + 1 - (i + (n + 1))) (by omega)
      hdig
    rw [show e + 1 - (i + (n + 1)) + n = e + 1 - (i + 1) by omega] at hsuf
    have hlt := decimalValue_lt str (e + 1) (by omega) (i + 1) (e + 1 - (i + 1)) (by omega)
      hsuf
    have hpow : 10 ^ (i + 1) ≤ 10 ^ 9 := Nat.pow_le_pow_right (by omega) (by omega)
    have hcast : ((decimalValue (bytesBetween str (e + 1 - i) (e + 1)) : Nat) : Int)
          + ((str[e - i] : Int) - 48) * 10 ^ i
        = ((decimalValue (bytesBetween str (e + 1 - (i + 1)) (e + 1)) : Nat) : Int) := by
      rw [hnext]
      push_cast [Nat.cast_sub hd.1]
      ring
    rw [gps_ascii2num_loop, c.sub_of_le (by omega) he, List.getElem?_eq_getElem hidx]
    simp only [hcast]
    have hrange : (0 : Int) ≤ ((decimalValue (bytesBetween str (e + 1 - (i + 1)) (e + 1)) : Nat) : Int)
        ∧ ((decimalValue (bytesBetween str (e + 1 - (i + 1)) (e + 1)) : Nat) : Int)
            < 4294967296 := by
      constructor
      · exact Int.ofNat_nonneg _
      · have : decimalValue (bytesBetween str (e + 1 - (i + 1)) (e + 1)) < 4294967296 := by
          have : (10 : Nat) ^ 9 < 4294967296 := by norm_num
          omega
        exact_mod_cast this
    rw [if_pos hrange, Int.toNat_ofNat]
    have := ih (i + 1) (by omega) (by omega) (by
      rw [show i + 1 + n = i + (n + 1) by omega]; exact hdig)
    rw [this, show i + 1 + n = i + (n + 1) by omega]

/-- C11. For a range `[startIndex, endIndex]` of at most 9 bytes inside the buffer, all of
them ASCII digits, `gps_ascii2num` returns the base-10 value of the digit string: the
sum of `digit * 10 ^ position`, positions counted from the rightmost digit (`pow` being
the exact power). -/
theorem gps_ascii2num_digits (c : Target) (str : List Nat) (startIndex endIndex : Nat)
    (hM : endIndex + 1 < c.SIZE_MOD) (hse : startIndex ≤ endIndex)
    (hlen : endIndex < str.length) (h9 : endIndex - startIndex < 9)
    (hdig : digitsAt str startIndex (endIndex + 1)) :
    gps_ascii2num c str startIndex endIndex
      = some (decimalValue (bytesBetween str startIndex (endIndex + 1))) := by
  have hbound : c.add (c.sub endIndex startIndex) 1 = endIndex - startIndex + 1 := by
    rw [c.sub_of_le hse (by omega), c.add_of_lt (by omega)]
  have hloop := gps_ascii2num_loop_digits c str endIndex (by omega) hlen
    (endIndex - startIndex + 1) 0 (by omega) (by omega) (by
      rw [show endIndex + 1 - (0 + (endIndex - startIndex + 1)) = startIndex by omega]
      exact hdig)
  rw [show endIndex + 1 - 0 = endIndex + 1 by omega, bytesBetween_self,
    show endIndex + 1 - (0 + (endIndex - startIndex + 1)) = startIndex by omega] at hloop
  rw [gps_ascii2num, hbound]
  exact hloop

/-- The digit strings `1234` and `0` of the spec, and the date field of the quoted RMC
sentence. -/
theorem gps_ascii2num_digits_witness :
    gps_ascii2num shipped (bytes "1234") 0 3 = some 1234
      ∧ gps_ascii2num shipped (bytes "0") 0 0 = some 0
      ∧ gps_ascii2num shipped rmcSentence 51 56 = some 230394 :=
  ⟨(gps_ascii2num_digits shipped (bytes "1234") 0 3 (by decide) (by decide) (by decide)
      (by decide) (by decide)).trans (by decide),
    (gps_ascii2num_digits shipped (bytes "0") 0 0 (by decide) (by decide) (by decide)
      (by decide) (by decide)).trans (by decide),
    (gps_ascii2num_digits shipped rmcSentence 51 56 (by decide) (by decide) (by decide)
      (by decide) (by decide)).trans (by decide)⟩

/-! ### The float converter on digit strings -/

theorem gps_controlChecksum_at_first_star (c : Target) (str : List Nat)
    (size startIndex j hi lo : Nat) (hsize : size ≤ str.length) (hM : size < c.SIZE_MOD)
    (hs : startIndex < j) (hj2 : j + 2 < size)
    (hstar : str[j]? = some CHECKSUM_INDICATOR)
    (hfirst : ∀ k, startIndex < k → k < j → str[k]? ≠ some CHECKSUM_INDICATOR)
    (hhi : str[j + 1]? = some hi) (hlo : str[j + 2]? = some lo) :
    gps_controlChecksum c str size startIndex
      = some (if ((xorRange str 0 (startIndex + 1) j &&& 0xFF : Nat) : Int)
                  = ((((hi : Int) - 48) * 16) + ((lo : Int) - 48)) % 4294967296
              then GPS_VALID_CHECKSUM else GPS_INVALID_CHECKSUM) := by
  have hadd : c.add startIndex 1 = startIndex + 1 := c.add_of_lt (by omega)
  unfold gps_controlChecksum
  rw [hadd]
  rcases gps_controlChecksum_loop_cases c str (size - (startIndex + 1))
    (startIndex + 1) 0 (by omega) with ⟨_, hall⟩ | ⟨j', h7, h8, h9, h10, h11⟩
  · exact absurd hstar (hall j (by omega) (by omega))
  · have hjj : j' = j := by
      rcases Nat.lt_trichotomy j' j with hlt | heq | hgt
      · exact absurd h9 (hfirst j' (by omega) hlt)
      · exact heq
      · exact absurd hstar (h10 j (by omega) hgt)
    subst hjj
    rw [h11, gps_controlChecksum_loop, h9]
    simp only [if_true]
    rw [c.add_of_lt (show j' + 1 < c.SIZE_MOD by omega),
      c.add_of_lt (show j' + 2 < c.SIZE_MOD by omega), hhi, hlo]

/-- C13, as stated, fails: the XOR of the payload bytes `AB,1,2` is `0x00`, not `0x03`,
and `gps_controlChecksum` on `$AB,1,2*03` returns `GPS_INVALID_CHECKSUM`. -/
theorem gps_controlChecksum_example_invalid :
    xorRange (bytes "$AB,1,2*03") 0 1 7 = 0
      ∧ gps_controlChecksum shipped (bytes "$AB,1,2*03") 10 0 = some GPS_INVALID_CHECKSUM
      ∧ gps_controlChecksum shipped (bytes "$AB,1,2*03") 10 0 ≠ some GPS_VALID_CHECKSUM := by
  decide

/-- C13, as the code has it. The XOR of the payload bytes `AB,1,2` is `0x00`, and on
every build that can index the 10 bytes `gps_controlChecksum` on `$AB,1,2*00` with
`startIndex` 0 returns `GPS_VALID_CHECKSUM`. -/
theorem gps_controlChecksum_example_valid (c : Target) (hM : 10 < c.SIZE_MOD) :
    xorRange (bytes "$AB,1,2*00") 0 1 7 = 0
      ∧ gps_controlChecksum c (bytes "$AB,1,2*00") 10 0 = some GPS_VALID_CHECKSUM := by
  refine ⟨by decide, ?_⟩
  rw [gps_controlChecksum_at_first_star c (bytes "$AB,1,2*00") 10 0 7 48 48 (by decide) hM
    (by decide) (by decide) (by decide) (by intro k h1 h2; interval_cases k <;> decide)
    (by decide) (by decide)]
  decide

/-- The shipped build and the one with checksum control on. -/
theorem gps_controlChecksum_example_valid_witness :
    gps_controlChecksum shipped (bytes "$AB,1,2*00") 10 0 = some GPS_VALID_CHECKSUM
      ∧ gps_controlChecksum checked (bytes "$AB,1,2*00") 10 0 = some GPS_VALID_CHECKSUM :=
  ⟨(gps_controlChecksum_example_valid shipped (by decide)).2,
    (gps_controlChecksum_example_valid checked (by decide)).2⟩

theorem hexDigit_decode (x hi lo : Nat) (hx : x < 256) (hhi : hi = hexDigit (x / 16))
    (hlo : lo = hexDigit (x % 16)) :
    ((x : Int) = ((((hi : Int) - 48) * 16) + ((lo : Int) - 48)) % 4294967296)
      ↔ (x / 16 < 10 ∧ x % 16 < 10) := by
  unfold hexDigit at hhi hlo
  by_cases h1 : x / 16 < 10 <;> by_cases h2 : x % 16 < 10 <;>
    simp only [h1, h2, if_true, if_false] at hhi hlo <;> omega

/-- C16. For a sentence whose two bytes after the first `*` are the upper-case
hexadecimal digits of the low 8 bits of the XOR of its payload: `gps_controlChecksum`
returns `GPS_VALID_CHECKSUM` when both are decimal digits and `GPS_INVALID_CHECKSUM`
when at least one is a letter `A..F`; a letter decodes to its offset from `'0'`, which is
its value plus 7 (17..22 instead of 10..15). -/
theorem gps_controlChecksum_hex (c : Target) (str : List Nat) (size startIndex j : Nat)
    (hsize : size ≤ str.length) (hM : size < c.SIZE_MOD) (hs : startIndex < j)
    (hj2 : j + 2 < size) (hstar : str[j]? = some CHECKSUM_INDICATOR)
    (hfirst : ∀ k, startIndex < k → k < j → str[k]? ≠ some CHECKSUM_INDICATOR)
    (hhi : str[j + 1]?
      = some (hexDigit ((xorRange str 0 (startIndex + 1) j &&& 0xFF) / 16)))
    (hlo : str[j + 2]?
      = some (hexDigit ((xorRange str 0 (startIndex + 1) j &&& 0xFF) % 16))) :
    gps_controlChecksum c str size startIndex
        = some (if (xorRange str 0 (startIndex + 1) j &&& 0xFF) / 16 < 10
                    ∧ (xorRange str 0 (startIndex + 1) j &&& 0xFF) % 16 < 10
                then GPS_VALID_CHECKSUM else GPS_INVALID_CHECKSUM)
      ∧ ∀ v, 10 ≤ v → v < 16 → hexDigit v - 48 = v + 7 := by
  constructor
  · have hx : xorRange str 0 (startIndex + 1) j &&& 0xFF < 256 :=
      Nat.lt_succ_of_le Nat.and_le_right
    rw [gps_controlChecksum_at_first_star c str size startIndex j _ _ hsize hM hs hj2 hstar
      hfirst hhi hlo]
    simp only [hexDigit_decode _ _ _ hx rfl rfl]
  · intro v h1 h2
    unfold hexDigit
    rw [if_neg (by omega)]
    omega

/-- The quoted RMC sentence carries the correct checksum `6A` and is reported invalid;
`$AB,1,2*00` has digits only and is reported valid. -/
theorem gps_controlChecksum_hex_witness :
    xorRange rmcSentence 0 1 65 = 106
      ∧ gps_controlChecksum checked rmcSentence 68 0 = some GPS_INVALID_CHECKSUM
      ∧ gps_controlChecksum checked (bytes "$AB,1,2*00") 10 0 = some GPS_VALID_CHECKSUM :=
  ⟨by decide,
    ((gps_controlChecksum_hex checked rmcSentence 68 0 65 (by decide) (by decide) (by decide)
      (by decide) (by decide) (by intro k h1 h2; interval_cases k <;> decide)
      (by decide) (by decide)).1).trans (by decide),
    ((gps_controlChecksum_hex checked (bytes "$AB,1,2*00") 10 0 7 (by decide) (by decide)
      (by decide) (by decide) (by decide) (by intro k h1 h2; interval_cases k <;> decide)
      (by decide) (by decide)).1).trans (by decide)⟩

theorem xorRange_step_of_get (str : List Nat) (acc lo hi b : Nat) (h : lo < hi)
    (hb : str[lo]? = some b) :
    xorRange str acc lo hi = xorRange str (acc ^^^ b) (lo + 1) hi := by
  have hlen : lo < str.length := by
    by_contra hge
    rw [List.getElem?_eq_none (by omega)] at hb
    exact absurd hb (by simp)
  rw [xorRange_step str acc lo hi h hlen]
  rw [List.getElem?_eq_getElem hlen] at hb
  rw [Option.some.inj hb]

theorem xorRange_congr (str str' : List Nat) (hi : Nat) (hlen : hi ≤ str.length) :
    ∀ n lo acc, lo + n = hi → (∀ j, lo ≤ j → j < hi → str'[j]? = str[j]?) →
      xorRange str' acc lo hi = xorRange str acc lo hi := by
  intro n
  induction n with
  | zero =>
    intro lo acc h _
    have : lo = hi := by omega
    subst this
    rw [xorRange_self, xorRange_self]
  | succ n ih =>
    intro lo acc h hagree
    have hlo : lo < str.length := by omega
    have hb : str[lo]? = some str[lo] := List.getElem?_eq_getElem hlo
    have hb' : str'[lo]? = some str[lo] := by rw [hagree lo (le_refl _) (by omega), hb]
    rw [xorRange_step_of_get str' acc lo hi _ (by omega) hb',
      xorRange_step_of_get str acc lo hi _ (by omega) hb]
    exact ih (lo + 1) _ (by omega) (fun j h1 h2 => hagree j (by omega) h2)

theorem xorRange_xor_acc (str : List Nat) (acc d lo hi : Nat) :
    xorRange str (acc ^^^ d) lo hi = xorRange str acc lo hi ^^^ d := by
  unfold xorRange
  generalize List.take (hi - lo) (List.drop lo str) = l
  induction l generalizing acc with
  | nil => rfl
  | cons b rest ih =>
    rw [List.foldl_cons, List.foldl_cons, ← ih (acc ^^^ b), Nat.xor_assoc, Nat.xor_comm d b,
      ← Nat.xor_assoc]

theorem xorRange_set (str : List Nat) (hi k b' : Nat) (hlen : hi ≤ str.length)
    (hk : k < hi) :
    ∀ n lo acc, lo + n = hi → lo ≤ k →
      xorRange (str.set k b') acc lo hi
        = xorRange str acc lo hi ^^^ (str.getD k 0 ^^^ b') := by
  intro n
  induction n with
  | zero => intro lo acc h hle; omega
  | succ n ih =>
    intro lo acc h hle
    have hlo : lo < str.length := by omega
    have hb : str[lo]? = some str[lo] := List.getElem?_eq_getElem hlo
    by_cases hlk : lo = k
    · subst hlk
      have hb' : (str.set lo b')[lo]? = some b' := List.getElem?_set_self hlo
      have hD : str.getD lo 0 = str[lo] := by
        rw [List.getD_eq_getElem?_getD, hb]
        rfl
      rw [xorRange_step_of_get (str.set lo b') acc lo hi _ (by omega) hb',
        xorRange_congr str (str.set lo b') hi hlen n (lo + 1) _ (by omega)
          (fun j h1 h2 => List.getElem?_set_ne (by omega)),
        xorRange_step_of_get str acc lo hi _ (by omega) hb, hD,
        xorRange_xor_acc str acc b', xorRange_xor_acc str acc str[lo],
        Nat.xor_assoc (xorRange str acc (lo + 1) hi) str[lo] (str[lo] ^^^ b'),
        Nat.xor_cancel_left]
    · have hb' : (str.set k b')[lo]? = some str[lo] := by
        rw [List.getElem?_set_ne (by omega), hb]
      rw [xorRange_step_of_get (str.set k b') acc lo hi _ (by omega) hb',
        xorRange_step_of_get str acc lo hi _ (by omega) hb]
      exact ih (lo + 1) _ (by omega) (by omega)

theorem and_xor_ne (x d : Nat) (hd0 : d ≠ 0) (hd : d < 256) :
    (x ^^^ d) &&& 0xFF ≠ x &&& 0xFF := by
  intro h
  have hmask : d &&& 0xFF = d := by
    have := Nat.and_pow_two_sub_one_eq_mod d 8
    norm_num at this
    rw [this, Nat.mod_eq_of_lt hd]
  rw [Nat.and_xor_distrib_right, hmask] at h
  have h0 : (x &&& 0xFF) ^^^ d = (x &&& 0xFF) ^^^ 0 := by rw [h, Nat.xor_zero]
  exact hd0 (Nat.xor_right_injective h0)

theorem gps_controlChecksum_eq_at_star (c : Target) (str : List Nat)
    (size startIndex j : Nat) (hsize : size ≤ str.length) (hM : size < c.SIZE_MOD)
    (hs : startIndex < j) (hj : j < size) (hstar : str[j]? = some CHECKSUM_INDICATOR)
    (hfirst : ∀ k, startIndex < k → k < j → str[k]? ≠ some CHECKSUM_INDICATOR) :
    gps_controlChecksum c str size startIndex
      = gps_controlChecksum_loop c str 1 j (xorRange str 0 (startIndex + 1) j) := by
  have hadd : c.add startIndex 1 = startIndex + 1 := c.add_of_lt (by omega)
  unfold gps_controlChecksum
  rw [hadd]
  rcases gps_controlChecksum_loop_cases c str (size - (startIndex + 1))
    (startIndex + 1) 0 (by omega) with ⟨_, hall⟩ | ⟨j', h7, h8, h9, h10, h11⟩
  · exact absurd hstar (hall j (by omega) (by omega))
  · have hjj : j' = j := by
      rcases Nat.lt_trichotomy j' j with hlt | heq | hgt
      · exact absurd h9 (hfirst j' (by omega) hlt)
      · exact heq
      · exact absurd hstar (h10 j (by omega) hgt)
    subst hjj
    exact h11

/-- C14. On a sentence that `gps_controlChecksum` reports valid, replacing one payload
byte (an index after the start marker and before the first `*`) by a different byte
that is not `*` makes `gps_controlChecksum` report `GPS_INVALID_CHECKSUM`. -/
theorem gps_controlChecksum_detects (c : Target) (str : List Nat)
    (size startIndex k b' : Nat) (hsize : size ≤ str.length)
    (hM : size + 2 < c.SIZE_MOD) (hstart : startIndex < size)
    (hbytes : ∀ b ∈ str, b < 256) (hb' : b' < 256)
    (hnstar : b' ≠ CHECKSUM_INDICATOR) (hs : startIndex < k)
    (hpayload : ∀ i, startIndex < i → i ≤ k → str[i]? ≠ some CHECKSUM_INDICATOR)
    (hdiff : str[k]? ≠ some b')
    (hvalid : gps_controlChecksum c str size startIndex = some GPS_VALID_CHECKSUM) :
    gps_controlChecksum c (str.set k b') size startIndex = some GPS_INVALID_CHECKSUM := by
  have hadd : c.add startIndex 1 = startIndex + 1 := c.add_of_lt (by omega)
  have hcases := gps_controlChecksum_loop_cases c str (size - (startIndex + 1))
    (startIndex + 1) 0 (by omega)
  have hv := hvalid
  unfold gps_controlChecksum at hv
  rw [hadd] at hv
  rcases hcases with ⟨hno, _⟩ | ⟨j, h1, h2, h3, h4, h5⟩
  · rw [hno] at hv
    exact absurd hv (by simp)
  · have hkj : k < j := by
      by_contra hge
      exact hpayload j (by omega) (by omega) h3
    have hjs : j < size := by omega
    have hklen : k < str.length := by omega
    have hset3 : (str.set k b')[j]? = some CHECKSUM_INDICATOR := by
      rw [List.getElem?_set_ne (by omega), h3]
    have hfirst' : ∀ i, startIndex < i → i < j →
        (str.set k b')[i]? ≠ some CHECKSUM_INDICATOR := by
      intro i hi1 hi2
      by_cases hik : i = k
      · subst hik
        rw [List.getElem?_set_self hklen]
        intro h
        exact hnstar (Option.some.inj h)
      · rw [List.getElem?_set_ne (fun h => hik h.symm)]
        exact h4 i (by omega) hi2
    rw [gps_controlChecksum_eq_at_star c (str.set k b') size startIndex j
      (by rw [List.length_set]; exact hsize) (by omega) (by omega) hjs hset3 hfirst']
    rw [h5, gps_controlChecksum_loop, h3] at hv
    simp only [if_true] at hv
    rw [c.add_of_lt (show j + 1 < c.SIZE_MOD by omega),
      c.add_of_lt (show j + 2 < c.SIZE_MOD by omega)] at hv
    rw [gps_controlChecksum_loop, hset3]
    simp only [if_true]
    rw [c.add_of_lt (show j + 1 < c.SIZE_MOD by omega),
      c.add_of_lt (show j + 2 < c.SIZE_MOD by omega),
      List.getElem?_set_ne (show k ≠ j + 1 by omega),
      List.getElem?_set_ne (show k ≠ j + 2 by omega)]
    cases hhi : str[j + 1]? with
    | none => simp [hhi] at hv
    | some hi =>
      cases hlo : str[j + 2]? with
      | none => simp [hhi, hlo] at hv
      | some lo =>
        simp only [hhi, hlo] at hv ⊢
        have hcond : ((xorRange str 0 (startIndex + 1) j &&& 0xFF : Nat) : Int)
            = ((((hi : Int) - 48) * 16) + ((lo : Int) - 48)) % 4294967296 := by
          by_contra hne
          rw [if_neg hne] at hv
          exact absurd (Option.some.inj hv) (by decide)
        have hold : str[k]? = some str[k] := List.getElem?_eq_getElem hklen
        have hD : str.getD k 0 = str[k] := by
          rw [List.getD_eq_getElem?_getD, hold]
          rfl
        have hd0 : str[k] ^^^ b' ≠ 0 := by
          intro h
          apply hdiff
          rw [hold, Nat.xor_eq_zero.mp h]
        have hd : str[k] ^^^ b' < 256 :=
          Nat.xor_lt_two_pow (n := 8) (hbytes _ (List.getElem_mem _)) hb'
        have hne := and_xor_ne (xorRange str 0 (startIndex + 1) j) (str[k] ^^^ b') hd0 hd
        rw [xorRange_set str j k b' (by omega) hkj (j - (startIndex + 1)) (startIndex + 1) 0
          (by omega) (by omega), hD]
        have hcond' : ¬ (((xorRange str 0 (startIndex + 1) j ^^^ (str[k] ^^^ b')) &&& 0xFF
            : Nat) : Int) = ((((hi : Int) - 48) * 16) + ((lo : Int) - 48)) % 4294967296 := by
          intro h
          rw [← hcond] at h
          exact hne (by exact_mod_cast h)
        rw [if_neg hcond']

/-- The sentence `$AB,1,2*00` is valid; with its `1` replaced by `3` it is invalid. -/
theorem gps_controlChecksum_detects_witness :
    gps_controlChecksum shipped (bytes "$AB,1,2*00") 10 0 = some GPS_VALID_CHECKSUM
      ∧ (bytes "$AB,1,2*00").set 4 51 = bytes "$AB,3,2*00"
      ∧ gps_controlChecksum shipped ((bytes "$AB,1,2*00").set 4 51) 10 0
          = some GPS_INVALID_CHECKSUM :=
  ⟨by decide, by decide,
    gps_controlChecksum_detects shipped (bytes "$AB,1,2*00") 10 0 4 51 (by decide)
      (by decide) (by decide) (by decide) (by decide) (by decide) (by decide)
      (by intro i h1 h2; interval_cases i <;> decide) (by decide) (by decide)⟩

/-! ## The query, field by field -/

/-- C15. Once the locator has returned: with checksum control on, any verdict of
`gps_controlChecksum` other than `GPS_VALID_CHECKSUM` makes `gps_getInfo` return the
error value, and the verdict `GPS_VALID_CHECKSUM` lets it decode the field; with checksum
control off `gps_getInfo` is the field decoding alone, in which the validator does not
occur. -/
theorem gps_getInfo_checksum_gate (c : Target) (str : List Nat) (size address index : Nat)
    (r : Int) (hloc : gps_findAddress c str size 0 address = some r) :
    (c.GPS_CHECKSUM_CONTROL_ON = true →
        ∀ st, gps_controlChecksum c str size (c.toSize r) = some st →
          st ≠ GPS_VALID_CHECKSUM →
          gps_getInfo c str size address index = some .error)
    ∧ (c.GPS_CHECKSUM_CONTROL_ON = true →
        gps_controlChecksum c str size (c.toSize r) = some GPS_VALID_CHECKSUM →
        gps_getInfo c str size address index
          = fieldDecode c str size address index (c.toSize r))
    ∧ (c.GPS_CHECKSUM_CONTROL_ON = false →
        gps_getInfo c str size address index
          = fieldDecode c str size address index (c.toSize r)) := by
  refine ⟨?_, ?_, ?_⟩
  · intro hon st hst hne
    unfold gps_getInfo
    rw [hloc]
    simp only [hon, if_true, hst]
    rw [if_pos (fun h => hne h.symm)]
  · intro hon hst
    unfold gps_getInfo fieldDecode
    rw [hloc]
    simp only [hon, if_true, hst]
    simp
  · intro hoff
    unfold gps_getInfo fieldDecode
    rw [hloc]
    simp [hoff]

/-- The quoted RMC sentence: the validator reports it invalid (its checksum `6A` has a
letter), so the build with checksum control returns the error value; the shipped build
decodes field 2 all the same. -/
theorem gps_getInfo_checksum_gate_witness :
    gps_controlChecksum checked rmcSentence 68 0 = some GPS_INVALID_CHECKSUM
      ∧ gps_getInfo checked rmcSentence 68 GPS_GPRMC 2 = some .error
      ∧ gps_getInfo shipped rmcSentence 68 GPS_GPRMC 2
          = fieldDecode shipped rmcSentence 68 GPS_GPRMC 2 0
      ∧ fieldDecode shipped rmcSentence 68 GPS_GPRMC 2 0 = some (.cdata 65) :=
  ⟨by decide,
    (gps_getInfo_checksum_gate checked rmcSentence 68 GPS_GPRMC 2 0 (by decide)).1
      (by decide) GPS_INVALID_CHECKSUM (by decide) (by decide),
    (gps_getInfo_checksum_gate shipped rmcSentence 68 GPS_GPRMC 2 0 (by decide)).2.2
      (by decide),
    by decide⟩

theorem gps_getTable_some (address : Nat) (t : List gps_infoType_t)
    (htab : gps_getTable address = some t) :
    t.length ≤ 17 ∧ GPS_INFO_ERROR ∉ t := by
  unfold gps_getTable at htab
  split_ifs at htab <;> (rw [← Option.some.inj htab]; decide)

/-- With checksum control off: once the sentence is located at `s`, the `k`-th `,` at or
after `s` is at `a` and the next `,` is at `b`, the query is the field decoder on
`a` and `b`. -/
theorem gps_getInfo_of_separators (c : Target) (str : List Nat)
    (size address k s a b : Nat) (t : List gps_infoType_t)
    (hoff : c.GPS_CHECKSUM_CONTROL_ON = false) (hsize : size ≤ str.length)
    (hfit : c.fits size) (htab : gps_getTable address = some t) (hk1 : 1 ≤ k)
    (hk : k ≤ t.length)
    (hloc : gps_findAddress c str size 0 address = some (s : Int)) (ha : a < size)
    (hocc : occursAt str VALUE_SEPERATOR_HEXADECIMAL s a)
    (hcount : occurrences str VALUE_SEPERATOR_HEXADECIMAL s a = k - 1)
    (hab : a < b) (hb : b < size) (hbsep : str[b]? = some VALUE_SEPERATOR_HEXADECIMAL)
    (hnone : ∀ j, a < j → j < b → str[j]? ≠ some VALUE_SEPERATOR_HEXADECIMAL) :
    gps_getInfo c str size address k = gps_getData c str a b t k := by
  obtain ⟨hM, hE, _⟩ := hfit
  have hlen17 := (gps_getTable_some address t htab).1
  have hsa : s ≤ a := hocc.1
  have h2 := gps_findXthIndex_eq_of_nth c str size s VALUE_SEPERATOR_HEXADECIMAL k a hsize hE
    (by omega) hk1 (by omega) ha hocc hcount
  have h3 : gps_findIndex c str size (c.add a 1) VALUE_SEPERATOR_HEXADECIMAL = some b := by
    rw [c.add_of_lt (by omega)]
    exact gps_findIndex_eq_of_first c str size (a + 1) VALUE_SEPERATOR_HEXADECIMAL b hsize
      (by omega) hb hbsep (fun j h1 h2 => hnone j (by omega) h2)
  exact gps_getInfo_eq_getData c str size address k s a b t hoff (by omega) hloc h2 h3 htab

/-- C17. With checksum control off, for a kind with a table `t` and a field index
`1 ≤ k ≤ t.length`: when the sentence is located at `s`, the `k`-th `,` at or after `s`
is at `a` and the next `,` after `a` is at `b`, `gps_getInfo` returns the discriminant
`t[k-1]` with the payload of its converter on the bytes strictly between the two
separators: `gps_floatAscii2num` on `[a+1, b-1]` for Float, `gps_ascii2num` on
`[a+1, b-1]` for Integer, the byte `str[a+1]` for Character; `t[k-1]` is one of the
three. -/
theorem gps_getInfo_field (c : Target) (str : List Nat)
    (size address k s a b : Nat) (t : List gps_infoType_t)
    (hoff : c.GPS_CHECKSUM_CONTROL_ON = false) (hsize : size ≤ str.length)
    (hfit : c.fits size) (htab : gps_getTable address = some t) (hk1 : 1 ≤ k)
    (hk : k ≤ t.length)
    (hloc : gps_findAddress c str size 0 address = some (s : Int)) (ha : a < size)
    (hocc : occursAt str VALUE_SEPERATOR_HEXADECIMAL s a)
    (hcount : occurrences str VALUE_SEPERATOR_HEXADECIMAL s a = k - 1)
    (hab : a < b) (hb : b < size) (hbsep : str[b]? = some VALUE_SEPERATOR_HEXADECIMAL)
    (hnone : ∀ j, a < j → j < b → str[j]? ≠ some VALUE_SEPERATOR_HEXADECIMAL) :
    (t[k - 1]? = some GPS_FLOAT_TYPE →
        gps_getInfo c str size address k
          = (gps_floatAscii2num c str (a + 1) (b - 1)).map .fdata)
    ∧ (t[k - 1]? = some GPS_INTEGER_TYPE →
        gps_getInfo c str size address k
          = (gps_ascii2num c str (a + 1) (b - 1)).map .udata)
    ∧ (t[k - 1]? = some GPS_CHARACTER_TYPE →
        ∃ ch, str[a + 1]? = some ch
          ∧ gps_getInfo c str size address k = some (.cdata ch))
    ∧ (t[k - 1]? = some GPS_FLOAT_TYPE ∨ t[k - 1]? = some GPS_INTEGER_TYPE
        ∨ t[k - 1]? = some GPS_CHARACTER_TYPE) := by
  have hdata := gps_getInfo_of_separators c str size address k s a b t hoff hsize hfit htab
    hk1 hk hloc ha hocc hcount hab hb hbsep hnone
  have hM := hfit.1
  have hadd : c.add a 1 = a + 1 := c.add_of_lt (by omega)
  have hsub : c.sub b 1 = b - 1 := c.sub_of_le (by omega) (by omega)
  have hk0 : ¬ k = 0 := by omega
  rw [hdata, gps_getData, if_neg hk0, hadd, hsub]
  refine ⟨?_, ?_, ?_, ?_⟩
  · intro h
    rw [h]
  · intro h
    rw [h]
  · intro h
    rw [h]
    have hlen : a + 1 < str.length := by omega
    exact ⟨str[a + 1], List.getElem?_eq_getElem hlen, by
      simp [gps_getSingleChar, List.getElem?_eq_getElem hlen]⟩
  · have hlt : k - 1 < t.length := by omega
    have hmem : t[k - 1] ∈ t := List.getElem_mem _
    have hne : t[k - 1] ≠ GPS_INFO_ERROR := fun h =>
      (gps_getTable_some address t htab).2 (h ▸ hmem)
    rw [List.getElem?_eq_getElem hlt]
    cases hT : t[k - 1] with
    | GPS_FLOAT_TYPE => exact Or.inl rfl
    | GPS_INTEGER_TYPE => exact Or.inr (Or.inl rfl)
    | GPS_CHARACTER_TYPE => exact Or.inr (Or.inr rfl)
    | GPS_INFO_ERROR => exact absurd hT hne

/-- The quoted RMC sentence: field 9 (Integer, the date between the separators at 50
and 57), field 1 (Float) and field 4 (Character). -/
theorem gps_getInfo_field_witness :
    gps_getInfo shipped rmcSentence 68 GPS_GPRMC 9
        = (gps_ascii2num shipped rmcSentence 51 56).map .udata
      ∧ gps_getInfo shipped rmcSentence 68 GPS_GPRMC 1
        = (gps_floatAscii2num shipped rmcSentence 7 12).map .fdata
      ∧ ∃ ch, rmcSentence[25]? = some ch
          ∧ gps_getInfo shipped rmcSentence 68 GPS_GPRMC 4 = some (.cdata ch) :=
  ⟨(gps_getInfo_field shipped rmcSentence 68 GPS_GPRMC 9 0 50 57 typeTableGPRMC
      (by decide) (by decide) (by decide) (by decide) (by decide) (by decide) (by decide)
      (by decide) (by decide) (by decide) (by decide) (by decide) (by decide)
      (by intro j h1 h2; interval_cases j <;> decide)).2.1 (by decide),
    (gps_getInfo_field shipped rmcSentence 68 GPS_GPRMC 1 0 6 13 typeTableGPRMC
      (by decide) (by decide) (by decide) (by decide) (by decide) (by decide) (by decide)
      (by decide) (by decide) (by decide) (by decide) (by decide) (by decide)
      (by intro j h1 h2; interval_cases j <;> decide)).1 (by decide),
    (gps_getInfo_field shipped rmcSentence 68 GPS_GPRMC 4 0 24 26 typeTableGPRMC
      (by decide) (by decide) (by decide) (by decide) (by decide) (by decide) (by decide)
      (by decide) (by decide) (by decide) (by decide) (by decide) (by decide)
      (by intro j h1 h2; have : j = 25 := by omega
          subst this; decide)).2.2.1 (by decide)⟩

theorem Target.add_sub_succ (c : Target) (a : Nat) (hM : a + 1 < c.SIZE_MOD) :
    c.add (c.sub a (a + 1)) 1 = 0 := by
  have hneg : c.sub a (a + 1) = c.SIZE_MOD - 1 := by
    unfold Target.sub Target.toSize
    have h1 : ((a : Int) - ((a + 1 : Nat) : Int)) % (c.SIZE_MOD : Int)
        = ((c.SIZE_MOD : Int) - 1) % (c.SIZE_MOD : Int) := by
      rw [show ((c.SIZE_MOD : Int) - 1) = ((a : Int) - ((a + 1 : Nat) : Int))
          + (c.SIZE_MOD : Int) by push_cast; ring, Int.add_emod_self]
    rw [h1, Int.emod_eq_of_lt (by omega) (by omega)]
    omega
  rw [hneg]
  unfold Target.add Target.toSize
  rw [show (((c.SIZE_MOD - 1 : Nat) : Int) + ((1 : Nat) : Int)) = (c.SIZE_MOD : Int) by
    rw [Nat.cast_sub (by omega)]; push_cast; ring, Int.emod_self]
  rfl

/-- C19. With checksum control off, for a kind with a table `t` and `1 ≤ k ≤ t.length`:
when the `k`-th `,` at or after the located sentence start is at `a` and the byte at
`a + 1` is a `,` again (an empty field), `gps_getInfo` returns Integer 0 when `t[k-1]` is
Integer, Float 0 when it is Float, and the character `,` when it is Character; the loop
bound `endIndex - startIndex + 1` of both converters is 0 after wrap-around; the result
is never the error value. -/
theorem gps_getInfo_empty_field (c : Target) (str : List Nat)
    (size address k s a : Nat) (t : List gps_infoType_t)
    (hoff : c.GPS_CHECKSUM_CONTROL_ON = false) (hsize : size ≤ str.length)
    (hfit : c.fits size) (htab : gps_getTable address = some t) (hk1 : 1 ≤ k)
    (hk : k ≤ t.length)
    (hloc : gps_findAddress c str size 0 address = some (s : Int))
    (hocc : occursAt str VALUE_SEPERATOR_HEXADECIMAL s a)
    (hcount : occurrences str VALUE_SEPERATOR_HEXADECIMAL s a = k - 1)
    (hb : a + 1 < size) (hbsep : str[a + 1]? = some VALUE_SEPERATOR_HEXADECIMAL) :
    (t[k - 1]? = some GPS_INTEGER_TYPE →
        gps_getInfo c str size address k = some (.udata 0))
    ∧ (t[k - 1]? = some GPS_FLOAT_TYPE →
        gps_getInfo c str size address k = some (.fdata 0))
    ∧ (t[k - 1]? = some GPS_CHARACTER_TYPE →
        gps_getInfo c str size address k = some (.cdata VALUE_SEPERATOR_HEXADECIMAL))
    ∧ c.add (c.sub (c.sub (a + 1) 1) (c.add a 1)) 1 = 0
    ∧ gps_getInfo c str size address k ≠ some .error := by
  have hdata := gps_getInfo_of_separators c str size address k s a (a + 1) t hoff hsize hfit
    htab hk1 hk hloc (by omega) hocc hcount (by omega) hb hbsep
    (fun j h1 h2 => by omega)
  have hM := hfit.1
  have hadd : c.add a 1 = a + 1 := c.add_of_lt (by omega)
  have hsub : c.sub (a + 1) 1 = a := by rw [c.sub_of_le (by omega) (by omega)]; omega
  have hzero := c.add_sub_succ a (by omega)
  have hk0 : ¬ k = 0 := by omega
  have hint : gps_ascii2num c str (a + 1) a = some 0 := by
    rw [gps_ascii2num, hzero]
    rfl
  have hfloat : gps_floatAscii2num c str (a + 1) a = some 0 := by
    rw [gps_floatAscii2num, hzero]
    rfl
  have hI : t[k - 1]? = some GPS_INTEGER_TYPE →
      gps_getInfo c str size address k = some (.udata 0) := by
    intro h
    rw [hdata, gps_getData, if_neg hk0, hadd, hsub, h]
    simp only [hint]
    rfl
  have hF : t[k - 1]? = some GPS_FLOAT_TYPE →
      gps_getInfo c str size address k = some (.fdata 0) := by
    intro h
    rw [hdata, gps_getData, if_neg hk0, hadd, hsub, h]
    simp only [hfloat]
    rfl
  have hC : t[k - 1]? = some GPS_CHARACTER_TYPE →
      gps_getInfo c str size address k = some (.cdata VALUE_SEPERATOR_HEXADECIMAL) := by
    intro h
    rw [hdata, gps_getData, if_neg hk0, hadd, hsub, h]
    simp only [gps_getSingleChar, hbsep]
    rfl
  refine ⟨hI, hF, hC, by rw [hadd, hsub]; exact hzero, ?_⟩
  have hlt : k - 1 < t.length := by omega
  have hmem : t[k - 1] ∈ t := List.getElem_mem _
  have hne : t[k - 1] ≠ GPS_INFO_ERROR := fun h =>
    (gps_getTable_some address t htab).2 (h ▸ hmem)
  have hget : t[k - 1]? = some t[k - 1] := List.getElem?_eq_getElem hlt
  cases hT : t[k - 1] with
  | GPS_FLOAT_TYPE => rw [hF (by rw [hget, hT])]; simp
  | GPS_INTEGER_TYPE => rw [hI (by rw [hget, hT])]; simp
  | GPS_CHARACTER_TYPE => rw [hC (by rw [hget, hT])]; simp
  | GPS_INFO_ERROR => exact absurd hT hne

/-- The stream `gsaThenRmc`: field 5 of the GSA sentence (Integer), the empty field
between the separators at 16 and 17. -/
theorem gps_getInfo_empty_field_witness :
    gsaThenRmc[16]? = some VALUE_SEPERATOR_HEXADECIMAL
      ∧ gsaThenRmc[17]? = some VALUE_SEPERATOR_HEXADECIMAL
      ∧ gps_getInfo shipped gsaThenRmc 62 GPS_GPGSA 5 = some (.udata 0) :=
  ⟨by decide, by decide,
    (gps_getInfo_empty_field shipped gsaThenRmc 62 GPS_GPGSA 5 0 16 typeTableGPGSA
      (by decide) (by decide) (by decide) (by decide) (by decide) (by decide) (by decide)
      (by decide) (by decide) (by decide) (by decide)).1 (by decide)⟩

/-! ## Kinds and their identifiers -/

theorem gps_findAddress_eq_not_found (c : Target) (str : List Nat)
    (size startIndex address : Nat) (hsize : size ≤ str.length) (hfit : c.fits size)
    (hend : ∀ j, j + 5 = size → str[j]? = some ADDRESS_INDICATOR → size < str.length)
    (hall : ∀ j, startIndex ≤ j → j < size → str[j]? = some ADDRESS_INDICATOR →
      addressSum str j ≠ some address) :
    gps_findAddress c str size startIndex address = some (toInt32 c.GPS_ERROR) := by
  unfold gps_findAddress
  rcases gps_findAddress_loop_cases c str size address hsize hfit (size + 1)
    startIndex (by omega) (by omega) with
    ⟨p, e1, e2, e3, e4, _, _⟩ | ⟨_, e2 | ⟨_, j, e3, e4, e5, e6⟩⟩
  · exact absurd e4 (hall p e1 (by omega) e3)
  · exact e2
  · have := hend j e4 e5
    omega

theorem addressSum_of_lettersAt (str : List Nat) (j : Nat) (code : Nat × Nat × Nat)
    (h : lettersAt str j = some code) : addressSum str j = some (kindIdentifier code) := by
  unfold lettersAt at h
  unfold addressSum
  cases h3 : str[j + 3]? with
  | none => simp [h3] at h
  | some x =>
    cases h4 : str[j + 4]? with
    | none => simp [h3, h4] at h
    | some y =>
      cases h5 : str[j + 5]? with
      | none => simp [h3, h4, h5] at h
      | some z =>
        simp only [h3, h4, h5] at h
        rw [← Option.some.inj h]
        rfl

theorem kindIdentifier_injective :
    ∀ x ∈ kindLetters, ∀ y ∈ kindLetters, kindIdentifier x = kindIdentifier y → x = y := by
  decide

/-- C18. The identifiers of the six supported kinds (sums of three letter codes) are
pairwise distinct and are the constants `gps_getTable` selects on.  Hence, on a stream in
which every `$` below `size` has its three identifying letters inside `size` and they are
the letters of one of the six kinds, `gps_findAddress` returns the first `$` at or after
`startIndex` whose three letters are exactly those of the requested kind, and
`NOT_FOUND` when there is none; and `gps_getTable` gives each kind its own table. -/
theorem gps_findAddress_exact_kind (c : Target) (str : List Nat) (size startIndex : Nat)
    (code : Nat × Nat × Nat) (hsize : size ≤ str.length) (hfit : c.fits size)
    (hcode : code ∈ kindLetters)
    (hwf : ∀ j, j < size → str[j]? = some ADDRESS_INDICATOR →
      j + 5 < size ∧ ∃ code' ∈ kindLetters, lettersAt str j = some code') :
    (kindLetters.map kindIdentifier).Nodup
    ∧ kindLetters.map kindIdentifier = supportedKinds
    ∧ (∀ p, startIndex ≤ p → p < size → str[p]? = some ADDRESS_INDICATOR →
        lettersAt str p = some code →
        (∀ j, startIndex ≤ j → j < p → str[j]? = some ADDRESS_INDICATOR →
          lettersAt str j ≠ some code) →
        gps_findAddress c str size startIndex (kindIdentifier code) = some (p : Int))
    ∧ ((∀ j, startIndex ≤ j → j < size → str[j]? = some ADDRESS_INDICATOR →
          lettersAt str j ≠ some code) →
        gps_findAddress c str size startIndex (kindIdentifier code)
          = some (toInt32 c.GPS_ERROR))
    ∧ (kindLetters.map (fun k => gps_getTable (kindIdentifier k))
        = [some typeTableGPRMC, some typeTableGPVTG, some typeTableGPGGA,
           some typeTableGPGSA, some typeTableGPGSV, some typeTableGPGLL]) := by
  have hother : ∀ j, j < size → str[j]? = some ADDRESS_INDICATOR →
      lettersAt str j ≠ some code → addressSum str j ≠ some (kindIdentifier code) := by
    intro j hj hmark hne
    obtain ⟨_, code', hmem, hl⟩ := hwf j hj hmark
    rw [addressSum_of_lettersAt str j code' hl]
    intro heq
    have := kindIdentifier_injective code' hmem code hcode (Option.some.inj heq)
    exact hne (by rw [hl, this])
  refine ⟨by decide, by decide, ?_, ?_, by decide⟩
  · intro p h1 h2 h3 h4 h5
    exact gps_findAddress_eq_of_first_match c str size startIndex (kindIdentifier code) p
      hsize hfit h1 (by have := (hwf p h2 h3).1; omega) h3
      (addressSum_of_lettersAt str p code h4)
      (fun j hj1 hj2 hj3 => hother j (by omega) hj3 (h5 j hj1 hj2 hj3))
  · intro hall
    exact gps_findAddress_eq_not_found c str size startIndex (kindIdentifier code) hsize hfit
      (fun j hj hmark => by have := (hwf j (by omega) hmark).1; omega)
      (fun j hj1 hj2 hj3 => hother j hj2 hj3 (hall j hj1 hj2 hj3))

/-- The stream `gsaThenRmc`: RMC is found at the second `$` (index 47), GSA at the
first, GLL is not found. -/
theorem gps_findAddress_exact_kind_witness :
    gps_findAddress shipped gsaThenRmc 62 0 GPS_GPRMC = some 47
      ∧ gps_findAddress shipped gsaThenRmc 62 0 GPS_GPGLL
          = some (toInt32 shipped.GPS_ERROR) := by
  have hwf : ∀ j, j < 62 → gsaThenRmc[j]? = some ADDRESS_INDICATOR →
      j + 5 < 62 ∧ ∃ code' ∈ kindLetters, lettersAt gsaThenRmc j = some code' := by
    intro j hj
    interval_cases j <;> decide
  exact ⟨(gps_findAddress_exact_kind shipped gsaThenRmc 62 0 (82, 77, 67) (by decide)
      (by decide) (by decide) hwf).2.2.1 47 (by decide) (by decide) (by decide) (by decide)
      (by intro j h1 h2; interval_cases j <;> decide),
    (gps_findAddress_exact_kind shipped gsaThenRmc 62 0 (71, 76, 76) (by decide)
      (by decide) (by decide) hwf).2.2.2.1 (by intro j h1 h2; interval_cases j <;> decide)⟩

/-! ## A field that runs into the next sentence -/

theorem gps_ascii2num_loop_across_marker (c : Target) (str : List Nat) (e q : Nat)
    (he : e < c.SIZE_MOD) (hqe : q ≤ e) (hmark : str[q]? = some ADDRESS_INDICATOR)
    (hascii : ∀ j, q < j → j ≤ e → ∀ b, str[j]? = some b → b ≤ 127) :
    ∀ n i sum, i ≤ e - q → e - q < i + n → 9 * sum + 79 ≤ 79 * 10 ^ i →
      gps_ascii2num_loop c str e n i sum = none := by
  intro n
  induction n with
  | zero => intro i sum h1 h2 _; omega
  | succ n ih =>
    intro i sum h1 h2 hsum
    rw [gps_ascii2num_loop, c.sub_of_le (by omega) he]
    cases hb : str[e - i]? with
    | none => rfl
    | some b =>
      simp only
      have hP : ((10 : Int) ^ i) = ((10 ^ i : Nat) : Int) := by push_cast; rfl
      by_cases hi : i = e - q
      · have hidx : e - i = q := by omega
        rw [hidx, hmark] at hb
        have hb36 : b = 36 := (Option.some.inj hb).symm
        subst hb36
        have hneg : ¬ (0 ≤ (sum : Int) + (((36 : Nat) : Int) - 48) * 10 ^ i
            ∧ (sum : Int) + (((36 : Nat) : Int) - 48) * 10 ^ i < 4294967296) := by
          rw [hP]
          intro h
          have := h.1
          push_cast at this
          omega
        rw [if_neg hneg]
      · have hb127 : b ≤ 127 := hascii (e - i) (by omega) (by omega) b hb
        have hle : ((b : Int) - 48) * 10 ^ i ≤ 79 * ((10 ^ i : Nat) : Int) := by
          rw [hP]
          exact Int.mul_le_mul_of_nonneg_right (by omega) (Int.ofNat_nonneg _)
        by_cases hrange : 0 ≤ (sum : Int) + ((b : Int) - 48) * 10 ^ i
            ∧ (sum : Int) + ((b : Int) - 48) * 10 ^ i < 4294967296
        · rw [if_pos hrange]
          apply ih (i + 1) _ (by omega) (by omega)
          have htn : ((((sum : Int) + ((b : Int) - 48) * 10 ^ i).toNat : Nat) : Int)
              = (sum : Int) + ((b : Int) - 48) * 10 ^ i := Int.toNat_of_nonneg hrange.1
          have hpow : 10 ^ (i + 1) = 10 * 10 ^ i := by ring
          rw [hpow]
          have : (9 * (((sum : Int) + ((b : Int) - 48) * 10 ^ i).toNat : Int) + 79)
              ≤ 79 * (10 * ((10 ^ i : Nat) : Int)) := by
            rw [htn]
            have hs : (9 * (sum : Int) + 79) ≤ 79 * ((10 ^ i : Nat) : Int) := by
              exact_mod_cast hsum
            omega
          exact_mod_cast this
        · rw [if_neg hrange]

/-- On a range that holds a start marker `$` followed by ASCII bytes only, the sum of
`gps_ascii2num` is negative once the marker is added, and its conversion to `uint32_t`
is undefined. -/
theorem gps_ascii2num_across_marker (c : Target) (str : List Nat) (s e q : Nat)
    (hM : e + 1 < c.SIZE_MOD) (hsq : s ≤ q) (hqe : q ≤ e)
    (hmark : str[q]? = some ADDRESS_INDICATOR)
    (hascii : ∀ j, q < j → j ≤ e → ∀ b, str[j]? = some b → b ≤ 127) :
    gps_ascii2num c str s e = none := by
  have hbound : c.add (c.sub e s) 1 = e - s + 1 := by
    rw [c.sub_of_le (by omega) (by omega), c.add_of_lt (by omega)]
  rw [gps_ascii2num, hbound]
  exact gps_ascii2num_loop_across_marker c str e q (by omega) hqe hmark hascii (e - s + 1) 0 0
    (by omega) (by omega) (by norm_num)

/-! ### The build whose conversion to `uint32_t` wraps -/

/-- Wherever the conversion is defined by the C standard, the wrapping build computes the
same sum. -/
theorem gps_ascii2num_wrap_loop_of_some (c : Target) (str : List Nat) (e : Nat) :
    ∀ n i sum v, gps_ascii2num_loop c str e n i sum = some v →
      gps_ascii2num_wrap_loop c str e n i sum = some v := by
  intro n
  induction n with
  | zero =>
    intro i sum v h
    rw [gps_ascii2num_loop] at h
    rw [gps_ascii2num_wrap_loop]
    exact h
  | succ n ih =>
    intro i sum v h
    rw [gps_ascii2num_loop] at h
    rw [gps_ascii2num_wrap_loop]
    cases hb : str[c.sub e i]? with
    | none =>
      rw [hb] at h
      simp at h
    | some b =>
      rw [hb] at h
      simp only at h ⊢
      generalize (sum : Int) + ((b : Int) - 48) * 10 ^ i = x at h ⊢
      by_cases hr : 0 ≤ x ∧ x < 4294967296
      · rw [if_pos hr] at h
        rw [if_pos ⟨by omega, by omega⟩, Int.emod_eq_of_lt hr.1 hr.2]
        exact ih _ _ _ h
      · rw [if_neg hr] at h
        simp at h

theorem gps_ascii2num_wrap_of_some (c : Target) (str : List Nat) (s e v : Nat)
    (h : gps_ascii2num c str s e = some v) : gps_ascii2num_wrap c str s e = some v :=
  gps_ascii2num_wrap_loop_of_some c str e _ 0 0 v h

theorem gps_getData_wrap_of_some (c : Target) (str : List Nat) (a b : Nat)
    (t : List gps_infoType_t) (k : Nat) (v : gps_infoData_t)
    (h : gps_getData c str a b t k = some v) : gps_getData_wrap c str a b t k = some v := by
  unfold gps_getData at h
  unfold gps_getData_wrap
  by_cases hk : k = 0
  · rw [if_pos hk] at h
    simp at h
  · rw [if_neg hk] at h
    rw [if_neg hk]
    cases ht : t[k - 1]? with
    | none =>
      rw [ht] at h
      simp at h
    | some ty =>
      rw [ht] at h
      cases ty with
      | GPS_INTEGER_TYPE =>
        simp only at h ⊢
        cases hn : gps_ascii2num c str (c.add a 1) (c.sub b 1) with
        | none =>
          rw [hn] at h
          simp at h
        | some w =>
          rw [hn] at h
          rw [gps_ascii2num_wrap_of_some c str _ _ w hn]
          exact h
      | GPS_FLOAT_TYPE => exact h
      | GPS_CHARACTER_TYPE => exact h
      | GPS_INFO_ERROR => exact h

/-- The query on the wrapping build returns what the query returns, wherever the C
standard defines it. -/
theorem gps_getInfo_wrap_of_some (c : Target) (str : List Nat) (size address index : Nat)
    (v : gps_infoData_t) (h : gps_getInfo c str size address index = some v) :
    gps_getInfo_wrap c str size address index = some v := by
  unfold gps_getInfo at h
  unfold gps_getInfo_wrap
  cases h1 : gps_findAddress c str size 0 address with
  | none =>
    rw [h1] at h
    simp at h
  | some r =>
    rw [h1] at h
    simp only at h ⊢
    cases h2 : (if c.GPS_CHECKSUM_CONTROL_ON then gps_controlChecksum c str size (c.toSize r)
        else some GPS_VALID_CHECKSUM) with
    | none =>
      rw [h2] at h
      simp at h
    | some st =>
      rw [h2] at h
      simp only at h ⊢
      by_cases hst : GPS_VALID_CHECKSUM ≠ st
      · rw [if_pos hst] at h
        rw [if_pos hst]
        exact h
      · rw [if_neg hst] at h
        rw [if_neg hst]
        cases h3 : gps_findXthIndex c str size (c.toSize r) VALUE_SEPERATOR_HEXADECIMAL index with
        | none =>
          rw [h3] at h
          simp at h
        | some a =>
          rw [h3] at h
          simp only at h ⊢
          cases h4 : gps_findIndex c str size (c.add a 1) VALUE_SEPERATOR_HEXADECIMAL with
          | none =>
            rw [h4] at h
            simp at h
          | some b =>
            rw [h4] at h
            simp only at h ⊢
            cases h5 : gps_getTable address with
            | none =>
              rw [h5] at h
              exact h
            | some t =>
              rw [h5] at h
              exact gps_getData_wrap_of_some c str a b t index v h

theorem gps_getInfo_wrap_eq_getData (c : Target) (str : List Nat)
    (size address index s a b : Nat)
    (t : List gps_infoType_t) (hoff : c.GPS_CHECKSUM_CONTROL_ON = false)
    (hs : s < c.SIZE_MOD)
    (h1 : gps_findAddress c str size 0 address = some (s : Int))
    (h2 : gps_findXthIndex c str size s VALUE_SEPERATOR_HEXADECIMAL index = some a)
    (h3 : gps_findIndex c str size (c.add a 1) VALUE_SEPERATOR_HEXADECIMAL = some b)
    (h4 : gps_getTable address = some t) :
    gps_getInfo_wrap c str size address index = gps_getData_wrap c str a b t index := by
  have hto : c.toSize (s : Int) = s := by
    rw [c.toSize_of_lt (by omega) (by omega)]
    omega
  unfold gps_getInfo_wrap
  simp [h1, hoff, hto, h2, h3, h4]

/-- With checksum control off, on the wrapping build: once the sentence is located at
`s`, the `k`-th `,` at or after `s` is at `a` and the next `,` is at `b`, the query is the
field decoder on `a` and `b`. -/
theorem gps_getInfo_wrap_of_separators (c : Target) (str : List Nat)
    (size address k s a b : Nat) (t : List gps_infoType_t)
    (hoff : c.GPS_CHECKSUM_CONTROL_ON = false) (hsize : size ≤ str.length)
    (hfit : c.fits size) (htab : gps_getTable address = some t) (hk1 : 1 ≤ k)
    (hk : k ≤ t.length)
    (hloc : gps_findAddress c str size 0 address = some (s : Int)) (ha : a < size)
    (hocc : occursAt str VALUE_SEPERATOR_HEXADECIMAL s a)
    (hcount : occurrences str VALUE_SEPERATOR_HEXADECIMAL s a = k - 1)
    (hab : a < b) (hb : b < size) (hbsep : str[b]? = some VALUE_SEPERATOR_HEXADECIMAL)
    (hnone : ∀ j, a < j → j < b → str[j]? ≠ some VALUE_SEPERATOR_HEXADECIMAL) :
    gps_getInfo_wrap c str size address k = gps_getData_wrap c str a b t k := by
  obtain ⟨hM, hE, _⟩ := hfit
  have hlen17 := (gps_getTable_some address t htab).1
  have hsa : s ≤ a := hocc.1
  have h2 := gps_findXthIndex_eq_of_nth c str size s VALUE_SEPERATOR_HEXADECIMAL k a hsize hE
    (by omega) hk1 (by omega) ha hocc hcount
  have h3 : gps_findIndex c str size (c.add a 1) VALUE_SEPERATOR_HEXADECIMAL = some b := by
    rw [c.add_of_lt (by omega)]
    exact gps_findIndex_eq_of_first c str size (a + 1) VALUE_SEPERATOR_HEXADECIMAL b hsize
      (by omega) hb hbsep (fun j h1 h2 => hnone j (by omega) h2)
  exact gps_getInfo_wrap_eq_getData c str size address k s a b t hoff (by omega) hloc h2 h3 htab

theorem gps_ascii2num_wrap_loop_step (c : Target) (str : List Nat) (e n i sum b sum' : Nat)
    (hi : i ≤ e) (he : e < c.SIZE_MOD) (hb : str[e - i]? = some b)
    (hr : -9223372036854775808 ≤ (sum : Int) + ((b : Int) - 48) * 10 ^ i
      ∧ (sum : Int) + ((b : Int) - 48) * 10 ^ i < 9223372036854775808)
    (hs : (((sum : Int) + ((b : Int) - 48) * 10 ^ i) % 4294967296).toNat = sum') :
    gps_ascii2num_wrap_loop c str e (n + 1) i sum
      = gps_ascii2num_wrap_loop c str e n (i + 1) sum' := by
  rw [gps_ascii2num_wrap_loop, c.sub_of_le hi he, hb]
  simp only
  rw [if_pos hr, hs]

/-- The twelve bytes `5*39\r\n$GPRMC` at `[41, 52]` of `gsaThenRmc`, summed from the
right with every partial sum reduced modulo `2^32`: 19, 309, 3709, 35709, 265709, then
`265709 - 1200000` stored as `4294033005`, and so on up to `443511065709` stored as
`1129434221`. -/
theorem gsaThenRmc_last_field_wrap (c : Target) (hfit : c.fits 62) :
    gps_ascii2num_wrap c gsaThenRmc 41 52 = some 1129434221 := by
  have hM := hfit.1
  have he : 52 < c.SIZE_MOD := by omega
  have e0 : c.add (c.sub 52 41) 1 = 12 := by
    rw [c.sub_of_le (by omega) (by omega), c.add_of_lt (by omega)]
  rw [gps_ascii2num_wrap, e0,
    gps_ascii2num_wrap_loop_step c gsaThenRmc 52 11 0 0 67 19 (by omega) he (by decide)
      (by decide) (by decide),
    gps_ascii2num_wrap_loop_step c gsaThenRmc 52 10 1 19 77 309 (by omega) he (by decide)
      (by decide) (by decide),
    gps_ascii2num_wrap_loop_step c gsaThenRmc 52 9 2 309 82 3709 (by omega) he (by decide)
      (by decide) (by decide),
    gps_ascii2num_wrap_loop_step c gsaThenRmc 52 8 3 3709 80 35709 (by omega) he (by decide)
      (by decide) (by decide),
    gps_ascii2num_wrap_loop_step c gsaThenRmc 52 7 4 35709 71 265709 (by omega) he
      (by decide) (by decide) (by decide),
    gps_ascii2num_wrap_loop_step c gsaThenRmc 52 6 5 265709 36 4294033005 (by omega) he
      (by decide) (by decide) (by decide),
    gps_ascii2num_wrap_loop_step c gsaThenRmc 52 5 6 4294033005 10 4256033005 (by omega) he
      (by decide) (by decide) (by decide),
    gps_ascii2num_wrap_loop_step c gsaThenRmc 52 4 7 4256033005 13 3906033005 (by omega) he
      (by decide) (by decide) (by decide),
    gps_ascii2num_wrap_loop_step c gsaThenRmc 52 3 8 3906033005 57 511065709 (by omega) he
      (by decide) (by decide) (by decide),
    gps_ascii2num_wrap_loop_step c gsaThenRmc 52 2 9 511065709 51 3511065709 (by omega) he
      (by decide) (by decide) (by decide),
    gps_ascii2num_wrap_loop_step c gsaThenRmc 52 1 10 3511065709 42 3640607853 (by omega) he
      (by decide) (by decide) (by decide),
    gps_ascii2num_wrap_loop_step c gsaThenRmc 52 0 11 3640607853 53 1129434221 (by omega) he
      (by decide) (by decide) (by decide),
    gps_ascii2num_wrap_loop]

/-- The field's own digit: on `[41, 41]` the converter gives 5. -/
theorem gsaThenRmc_last_digit_wrap (c : Target) (hfit : c.fits 62) :
    gps_ascii2num_wrap c gsaThenRmc 41 41 = some 5 := by
  have hM := hfit.1
  have e0 : c.add (c.sub 41 41) 1 = 1 := by
    rw [c.sub_of_le (by omega) (by omega), c.add_of_lt (by omega)]
  rw [gps_ascii2num_wrap, e0,
    gps_ascii2num_wrap_loop_step c gsaThenRmc 41 0 0 0 53 5 (by omega) (by omega) (by decide)
      (by decide) (by decide),
    gps_ascii2num_wrap_loop]

/-- C20. `gps_getInfo` bounds a field by the next `,` of the stream, not by the `*` or
the line end of the sentence.  On the stream `gsaThenRmc` (a GSA sentence whose field 17,
typed Integer in `typeTableGPGSA`, is `5`, then `*39`, the line end and an RMC sentence),
with checksum control off and on a build whose conversion to `uint32_t` wraps: the 17th
`,` is at 40 and the next `,` is the first one of the RMC sentence, at 53, so the bytes
handed to the Integer converter are the twelve bytes `5*39\r\n$GPRMC` at `[41, 52]`; the
query returns the Integer payload 1129434221, whereas the field's own digit, the range
`[41, 41]`, gives 5, the decimal value of `5`.  The sum passes through a negative value
at the `$`, whose conversion the C standard does not define
(`gps_ascii2num_across_marker`); the payload is the one of the wrapping build. -/
theorem gps_getInfo_runs_into_next_sentence (c : Target)
    (hoff : c.GPS_CHECKSUM_CONTROL_ON = false) (hfit : c.fits 62) :
    typeTableGPGSA[17 - 1]? = some GPS_INTEGER_TYPE
      ∧ gps_findXthIndex c gsaThenRmc 62 0 VALUE_SEPERATOR_HEXADECIMAL 17 = some 40
      ∧ gps_findIndex c gsaThenRmc 62 (c.add 40 1) VALUE_SEPERATOR_HEXADECIMAL = some 53
      ∧ bytesBetween gsaThenRmc 41 53 = bytes "5*39\r\n$GPRMC"
      ∧ gps_getInfo_wrap c gsaThenRmc 62 GPS_GPGSA 17
          = (gps_ascii2num_wrap c gsaThenRmc 41 52).map .udata
      ∧ gps_getInfo_wrap c gsaThenRmc 62 GPS_GPGSA 17 = some (.udata 1129434221)
      ∧ gps_ascii2num_wrap c gsaThenRmc 41 41 = some (decimalValue (bytes "5"))
      ∧ gps_getInfo_wrap c gsaThenRmc 62 GPS_GPGSA 17
          ≠ some (.udata (decimalValue (bytes "5"))) := by
  obtain ⟨hM, hE, h31⟩ := hfit
  have hfit : c.fits 62 := ⟨hM, hE, h31⟩
  have hloc : gps_findAddress c gsaThenRmc 62 0 GPS_GPGSA = some ((0 : Nat) : Int) :=
    gps_findAddress_eq_of_first_match c gsaThenRmc 62 0 GPS_GPGSA 0 (by decide) hfit
      (by decide) (by decide) (by decide) (by decide) (by intro j h1 h2; omega)
  have h2 : gps_findXthIndex c gsaThenRmc 62 0 VALUE_SEPERATOR_HEXADECIMAL 17 = some 40 :=
    gps_findXthIndex_eq_of_nth c gsaThenRmc 62 0 VALUE_SEPERATOR_HEXADECIMAL 17 40 (by decide)
      hE (by omega) (by omega) (by omega) (by omega) (by decide) (by decide)
  have h3 : gps_findIndex c gsaThenRmc 62 (c.add 40 1) VALUE_SEPERATOR_HEXADECIMAL
      = some 53 := by
    rw [c.add_of_lt (by omega)]
    exact gps_findIndex_eq_of_first c gsaThenRmc 62 41 VALUE_SEPERATOR_HEXADECIMAL 53
      (by decide) (by omega) (by omega) (by decide)
      (by intro j h1 h2; interval_cases j <;> decide)
  have hget : typeTableGPGSA[17 - 1]? = some GPS_INTEGER_TYPE := by decide
  have hdata := gps_getInfo_wrap_eq_getData c gsaThenRmc 62 GPS_GPGSA 17 0 40 53
    typeTableGPGSA hoff (by omega) hloc h2 h3 (by decide)
  have hres : gps_getInfo_wrap c gsaThenRmc 62 GPS_GPGSA 17
      = (gps_ascii2num_wrap c gsaThenRmc 41 52).map .udata := by
    rw [hdata, gps_getData_wrap, if_neg (by decide), hget]
    simp only
    rw [c.add_of_lt (show 40 + 1 < c.SIZE_MOD by omega),
      c.sub_of_le (show 1 ≤ 53 by omega) (by omega)]
  have hval : gps_getInfo_wrap c gsaThenRmc 62 GPS_GPGSA 17 = some (.udata 1129434221) := by
    rw [hres, gsaThenRmc_last_field_wrap c hfit]
    rfl
  have hfive : decimalValue (bytes "5") = 5 := by decide
  refine ⟨hget, h2, h3, by decide, hres, hval, ?_, ?_⟩
  · rw [hfive]
    exact gsaThenRmc_last_digit_wrap c hfit
  · rw [hval, hfive]
    decide

/-- The shipped build: the query for field 17 of the GSA sentence of `gsaThenRmc` returns
the Integer 1129434221, not 5. -/
theorem gps_getInfo_runs_into_next_sentence_witness :
    gps_getInfo_wrap shipped gsaThenRmc 62 GPS_GPGSA 17 = some (.udata 1129434221)
      ∧ gps_getInfo_wrap shipped gsaThenRmc 62 GPS_GPGSA 17
          ≠ some (.udata (decimalValue (bytes "5"))) :=
  ⟨(gps_getInfo_runs_into_next_sentence shipped (by decide) (by decide)).2.2.2.2.2.1,
    (gps_getInfo_runs_into_next_sentence shipped (by decide) (by decide)).2.2.2.2.2.2.2⟩

end SimpleGPS
